import Mathlib

/-!
Shallow embedding of the dsrp-core crate (KallDrexx/dsrp): the relay-server
handler (src/dsrp-core/src/server_handler/mod.rs), the relay-client handler
(src/dsrp-core/src/client_handler/mod.rs) and the handshake-response codec
(src/dsrp-core/src/handshake/handshake_response.rs), together with proofs
about registration, unregistration, client removal, identifier allocation,
the port/channel inverse-index invariant and the handshake round trip.

Modelling conventions:
- Rust `HashMap<K, V>` becomes an association list `List (Nat × K-erased V)`
  with `lookupKey` / `insertKey` / `eraseKey` mirroring `get` / `insert` /
  `remove`; `HashSet<T>` becomes a `List Nat` whose order stands in for the
  set's iteration order, with `setInsert` / `filter` mirroring `insert` /
  `remove`.
- `Wrapping<u32>` counters become `Nat` values reduced modulo `2 ^ 32` at the
  increment, exactly where the Rust code wraps.
- The id-allocation loops (which diverge when every 32-bit id is live) are
  given fuel `2 ^ 32`; a function whose Rust original can fail to return
  (divergence or a panic such as the `unimplemented!()` arm) returns an
  `Option`, with `none` for the non-returning case.
- `&[u8]` / `Vec<u8>` / `String` byte payloads become `List Nat`.
-/

deriving instance DecidableEq for Except

/-- Lookup in an association-list map: the value of the first pair whose key
equals k, mirroring `HashMap::get`. -/
def lookupKey {α : Type} (k : Nat) : List (Nat × α) → Option α
  | [] => none
  | (k', v) :: rest => if k' = k then some v else lookupKey k rest

/-- Removal from an association-list map, mirroring `HashMap::remove`. -/
def eraseKey {α : Type} (k : Nat) (m : List (Nat × α)) : List (Nat × α) :=
  m.filter (fun p => p.1 != k)

/-- Insertion into an association-list map, mirroring `HashMap::insert`. -/
def insertKey {α : Type} (k : Nat) (v : α) (m : List (Nat × α)) : List (Nat × α) :=
  (k, v) :: eraseKey k m

/-- Key set of an association-list map, used for `contains_key` probes. -/
def keysOf {α : Type} (m : List (Nat × α)) : List Nat :=
  m.map (fun p => p.1)

/-- Insertion into a modelled `HashSet`, keeping one copy of each element. -/
def setInsert (x : Nat) (s : List Nat) : List Nat :=
  if x ∈ s then s else s ++ [x]

/-- Size of the wrapping 32-bit id space. -/
def W32 : Nat := 4294967296

/-- One probe step of the id-allocation loop shared by all four allocators
(`add_dsrp_client`, the `Register` arm, `new_channel_tcp_connection` and
`request_registration`): increment the wrapping counter, skip candidates that
are live, answer the first free candidate. The fuel bounds the number of
probes; the Rust loop never returns when every 32-bit id is live, which the
model renders as `none`. The answer is simultaneously the new counter value
and the allocated id, exactly as in the source where the counter is left at
the allocated id. -/
def allocIdAux (live : List Nat) : Nat → Nat → Option Nat
  | 0, _ => none
  | fuel + 1, next =>
    let candidate := (next + 1) % W32
    if candidate ∈ live then allocIdAux live fuel candidate
    else some candidate

/-- Allocation of a fresh wrapping 32-bit id, with enough fuel to visit the
whole id space once. -/
def allocId (next : Nat) (live : List Nat) : Option Nat :=
  allocIdAux live W32 next

/-! Core identifier and message vocabulary (src/dsrp-core/src/messages). Ids
are newtype u32 wrappers in the source; they are modelled directly as `Nat`
values (always < 2 ^ 32 when minted by the handlers). -/

/-- Connection type of a registered channel (messages/mod.rs). -/
inductive ConnectionType where
  | Tcp
  | Udp
deriving DecidableEq

/-- Cause carried by a RegistrationFailed message (messages/server_message.rs). -/
inductive RegistrationFailureCause where
  | PortAlreadyRegistered
deriving DecidableEq

/-- Messages sent from the DSRP client to the server (messages/client_message.rs). -/
inductive ClientMessage where
  | Register (request : Nat) (connection_type : ConnectionType) (port : Nat)
  | Unregister (channel : Nat)
  | TcpConnectionDisconnected (channel : Nat) (connection : Nat)
  | DataBeingSent (channel : Nat) (connection : Option Nat) (data : List Nat)
deriving DecidableEq

/-- Messages sent from the DSRP server to the client (messages/server_message.rs). -/
inductive ServerMessage where
  | RegistrationSuccessful (request : Nat) (created_channel : Nat)
  | RegistrationFailed (request : Nat) (cause : RegistrationFailureCause)
  | NewIncomingTcpConnection (channel : Nat) (new_connection : Nat)
  | TcpConnectionClosed (channel : Nat) (connection : Nat)
  | DataReceived (channel : Nat) (connection : Option Nat) (data : List Nat)
deriving DecidableEq

/-- Operations the server handler instructs its embedder to perform
(server_handler/data_structures.rs, as constructed by server_handler/mod.rs:
the handler builds SendMessageToDsrpClient from the message alone). -/
inductive ServerOperation where
  | StartTcpOperations (port : Nat) (channel : Nat)
  | StopTcpOperations (port : Nat)
  | StartUdpOperations (port : Nat) (channel : Nat)
  | StopUdpOperations (port : Nat)
  | DisconnectConnection (connection : Nat)
  | SendMessageToDsrpClient (message : ServerMessage)
  | SendByteData (channel : Nat) (connection : Option Nat) (data : List Nat)
deriving DecidableEq

/-! Handshake data (src/dsrp-core/src/handshake). The server handler of
server_handler/mod.rs compares an integer-valued protocol version against
CURRENT_PROTOCOL_VERSION (its tests compute CURRENT_PROTOCOL_VERSION + 1), so
the version is modelled as a `Nat`; the concrete value of the constant is
immaterial to every claim. -/

/-- Protocol version the server accepts; the source admits a client iff the
versions compare equal. -/
def CURRENT_PROTOCOL_VERSION : Nat := 1

/-- Handshake request (handshake/handshake_request.rs). -/
structure HandshakeRequest where
  client_protocol_version : Nat
deriving DecidableEq

/-- Handshake response (handshake/handshake_response.rs); the failure reason
is a Rust `String`, modelled by its UTF-8 bytes. -/
inductive HandshakeResponse where
  | Success
  | Failure (reason : List Nat)
deriving DecidableEq

/-- Bytes of the decimal rendering of a number, for the failure text below. -/
def natDecimalBytes (n : Nat) : List Nat :=
  (Nat.toDigits 10 n).map Char.toNat

/-- Bytes of an ASCII string literal. -/
def asciiBytes (s : String) : List Nat :=
  s.data.map Char.toNat

/-- Failure text produced by add_dsrp_client on a protocol version mismatch
(server_handler/mod.rs lines 42-45). -/
def protocolMismatchReason (requested current : Nat) : List Nat :=
  asciiBytes "Protocol version " ++ natDecimalBytes requested ++
    asciiBytes " requested but only protocol version " ++ natDecimalBytes current ++
    asciiBytes " is supported"

/-! Server handler state (server_handler/mod.rs and the fields of
data_structures.rs that mod.rs actually constructs: ActiveChannel with port,
connection_type, owner and tcp_connections; ActiveTcpConnection with
owning_channel). -/

/-- Per-client record: the set of channels the client owns. -/
structure ActiveClient where
  channels : List Nat
deriving DecidableEq

/-- Per-channel record. -/
structure ActiveChannel where
  port : Nat
  connection_type : ConnectionType
  owner : Nat
  tcp_connections : List Nat
deriving DecidableEq

/-- Per-TCP-connection record. -/
structure ActiveTcpConnection where
  owning_channel : Nat
deriving DecidableEq

/-- New-client result of add_dsrp_client. -/
structure NewClient where
  id : Nat
  response : HandshakeResponse
deriving DecidableEq

/-- The server handler state (struct ServerHandler). -/
structure ServerHandler where
  active_clients : List (Nat × ActiveClient)
  active_ports : List (Nat × Nat)
  active_channels : List (Nat × ActiveChannel)
  active_tcp_connections : List (Nat × ActiveTcpConnection)
  next_client_id : Nat
  next_channel_id : Nat
  next_connection_id : Nat
deriving DecidableEq

/-- Fresh server handler (ServerHandler::new). -/
def ServerHandler.new : ServerHandler :=
  { active_clients := []
    active_ports := []
    active_channels := []
    active_tcp_connections := []
    next_client_id := 0
    next_channel_id := 0
    next_connection_id := 0 }

/-- Error kinds of handle_client_message (server_handler/errors.rs). -/
inductive ClientMessageHandlingErrorKind where
  | UnknownClientId (client : Nat)
  | ChannelNotFound (channel : Nat)
  | ChannelNotOwnedByRequester (channel : Nat) (requesting_client : Nat) (owning_client : Nat)
deriving DecidableEq

/-- Error kinds of new_channel_tcp_connection (server_handler/errors.rs; the
ConnectionAddedToUnboundChannel variant is never produced by mod.rs). -/
inductive NewConnectionErrorKind where
  | UnknownChannelId (channel : Nat)
  | ConnectionAddedToNonTcpChannel (channel : Nat)
deriving DecidableEq

/-- Registration of a new DSRP client (ServerHandler::add_dsrp_client,
server_handler/mod.rs lines 39-67). Version mismatch answers a Failure
response without touching the state; otherwise a fresh client id is probed
from the wrapping counter and inserted with an empty channel set. -/
def add_dsrp_client (s : ServerHandler) (request : HandshakeRequest) :
    Option (Except HandshakeResponse NewClient × ServerHandler) :=
  if request.client_protocol_version ≠ CURRENT_PROTOCOL_VERSION then
    some (Except.error (HandshakeResponse.Failure
      (protocolMismatchReason request.client_protocol_version CURRENT_PROTOCOL_VERSION)), s)
  else
    match allocId s.next_client_id (keysOf s.active_clients) with
    | none => none
    | some client_id =>
      some (Except.ok { id := client_id, response := HandshakeResponse.Success },
        { s with
          active_clients := insertKey client_id { channels := [] } s.active_clients
          next_client_id := client_id })

/-- Inner loop of remove_dsrp_client over one channel's tcp_connections
(server_handler/mod.rs lines 90-93): erase each connection from the
connection registry and push a DisconnectConnection operation. -/
def disconnectLoop : List Nat → ServerHandler → List ServerOperation →
    ServerHandler × List ServerOperation
  | [], s, results => (s, results)
  | connection :: rest, s, results =>
    disconnectLoop rest
      { s with active_tcp_connections := eraseKey connection s.active_tcp_connections }
      (results ++ [ServerOperation.DisconnectConnection connection])

/-- Outer loop of remove_dsrp_client over the removed client's channels
(server_handler/mod.rs lines 76-94): skip channels missing from the registry;
otherwise erase the channel and its port reservation, push the matching stop
operation, then disconnect its connections. -/
def removeChannelsLoop : List Nat → ServerHandler → List ServerOperation →
    ServerHandler × List ServerOperation
  | [], s, results => (s, results)
  | channel :: rest, s, results =>
    match lookupKey channel s.active_channels with
    | none => removeChannelsLoop rest s results
    | some active_channel =>
      let s1 := { s with
        active_channels := eraseKey channel s.active_channels
        active_ports := eraseKey active_channel.port s.active_ports }
      let operation := match active_channel.connection_type with
        | ConnectionType.Tcp => ServerOperation.StopTcpOperations active_channel.port
        | ConnectionType.Udp => ServerOperation.StopUdpOperations active_channel.port
      let step := disconnectLoop active_channel.tcp_connections s1 (results ++ [operation])
      removeChannelsLoop rest step.1 step.2

/-- Removal of a DSRP client (ServerHandler::remove_dsrp_client,
server_handler/mod.rs lines 69-97). Unknown clients produce no operations and
no state change. -/
def remove_dsrp_client (s : ServerHandler) (client_id : Nat) :
    List ServerOperation × ServerHandler :=
  match lookupKey client_id s.active_clients with
  | none => ([], s)
  | some client =>
    let s1 := { s with active_clients := eraseKey client_id s.active_clients }
    let r := removeChannelsLoop client.channels s1 []
    (r.2, r.1)

/-- The private handle_dsrp_client_disconnection_notification
(server_handler/mod.rs lines 316-345): validation failures soft-ignore with
an empty operation list; otherwise the connection is erased from the registry
and from its channel and a single DisconnectConnection is emitted. -/
def handle_dsrp_client_disconnection_notification (s : ServerHandler)
    (client_id channel_id connection_id : Nat) : List ServerOperation × ServerHandler :=
  match lookupKey connection_id s.active_tcp_connections with
  | none => ([], s)
  | some connection =>
    match lookupKey channel_id s.active_channels with
    | none => ([], s)
    | some channel =>
      if connection.owning_channel ≠ channel_id ∨ channel.owner ≠ client_id then ([], s)
      else
        ([ServerOperation.DisconnectConnection connection_id],
          { s with
            active_tcp_connections := eraseKey connection_id s.active_tcp_connections
            active_channels := insertKey channel_id
              { channel with tcp_connections :=
                  channel.tcp_connections.filter (fun c => c != connection_id) }
              s.active_channels })

/-- Message dispatch of the server handler (ServerHandler::handle_client_message,
server_handler/mod.rs lines 99-214). The DataBeingSent arm is
`unimplemented!()` in the source and therefore never returns, modelled as
`none`; the channel-allocation loop of the Register arm is the fueled
`allocId`. -/
def handle_client_message (s : ServerHandler) (client_id : Nat) (message : ClientMessage) :
    Option (Except ClientMessageHandlingErrorKind (List ServerOperation) × ServerHandler) :=
  if ¬ (lookupKey client_id s.active_clients).isSome then
    some (Except.error (ClientMessageHandlingErrorKind.UnknownClientId client_id), s)
  else
    match message with
    | ClientMessage.Register request connection_type port =>
      if (lookupKey port s.active_ports).isSome then
        some (Except.ok [ServerOperation.SendMessageToDsrpClient
          (ServerMessage.RegistrationFailed request
            RegistrationFailureCause.PortAlreadyRegistered)], s)
      else
        match allocId s.next_channel_id (keysOf s.active_channels) with
        | none => none
        | some channel_id =>
          let channel : ActiveChannel :=
            { port := port
              connection_type := connection_type
              owner := client_id
              tcp_connections := [] }
          let s1 := { s with
            next_channel_id := channel_id
            active_ports := insertKey port channel_id s.active_ports
            active_channels := insertKey channel_id channel s.active_channels }
          match lookupKey client_id s1.active_clients with
          | none => none
          | some client =>
            let client1 : ActiveClient := { channels := setInsert channel_id client.channels }
            let s2 := { s1 with active_clients := insertKey client_id client1 s1.active_clients }
            some (Except.ok
              [(match connection_type with
                | ConnectionType.Tcp => ServerOperation.StartTcpOperations port channel_id
                | ConnectionType.Udp => ServerOperation.StartUdpOperations port channel_id),
               ServerOperation.SendMessageToDsrpClient
                 (ServerMessage.RegistrationSuccessful request channel_id)], s2)
    | ClientMessage.Unregister channel =>
      match lookupKey channel s.active_channels with
      | none =>
        some (Except.error (ClientMessageHandlingErrorKind.ChannelNotFound channel), s)
      | some channel_details =>
        if channel_details.owner ≠ client_id then
          some (Except.error (ClientMessageHandlingErrorKind.ChannelNotOwnedByRequester
            channel client_id channel_details.owner), s)
        else
          let operations := channel_details.tcp_connections.map
            (fun connection => ServerOperation.DisconnectConnection connection)
          let operation := match channel_details.connection_type with
            | ConnectionType.Tcp => ServerOperation.StopTcpOperations channel_details.port
            | ConnectionType.Udp => ServerOperation.StopUdpOperations channel_details.port
          some (Except.ok (operations ++ [operation]),
            { s with
              active_tcp_connections := channel_details.tcp_connections.foldl
                (fun m connection => eraseKey connection m) s.active_tcp_connections
              active_ports := eraseKey channel_details.port s.active_ports
              active_channels := eraseKey channel s.active_channels })
    | ClientMessage.TcpConnectionDisconnected channel_id connection_id =>
      let r := handle_dsrp_client_disconnection_notification s client_id channel_id connection_id
      some (Except.ok r.1, r.2)
    | ClientMessage.DataBeingSent _ _ _ => none

/-- Registration of a freshly accepted inbound TCP connection
(ServerHandler::new_channel_tcp_connection, server_handler/mod.rs lines
216-256). -/
def new_channel_tcp_connection (s : ServerHandler) (channel_id : Nat) :
    Option (Except NewConnectionErrorKind (Nat × ServerOperation) × ServerHandler) :=
  match lookupKey channel_id s.active_channels with
  | none =>
    some (Except.error (NewConnectionErrorKind.UnknownChannelId channel_id), s)
  | some channel =>
    match channel.connection_type with
    | ConnectionType.Udp =>
      some (Except.error (NewConnectionErrorKind.ConnectionAddedToNonTcpChannel channel_id), s)
    | ConnectionType.Tcp =>
      match allocId s.next_connection_id (keysOf s.active_tcp_connections) with
      | none => none
      | some new_connection_id =>
        some (Except.ok (new_connection_id,
          ServerOperation.SendMessageToDsrpClient
            (ServerMessage.NewIncomingTcpConnection channel_id new_connection_id)),
          { s with
            next_connection_id := new_connection_id
            active_tcp_connections := insertKey new_connection_id
              { owning_channel := channel_id } s.active_tcp_connections
            active_channels := insertKey channel_id
              { channel with tcp_connections := setInsert new_connection_id channel.tcp_connections }
              s.active_channels })

/-- Server-side socket close notification (ServerHandler::tcp_connection_disconnected,
server_handler/mod.rs lines 258-277). -/
def tcp_connection_disconnected (s : ServerHandler) (connection_id : Nat) :
    Option ServerOperation × ServerHandler :=
  match lookupKey connection_id s.active_tcp_connections with
  | none => (none, s)
  | some connection =>
    let s1 := { s with active_tcp_connections := eraseKey connection_id s.active_tcp_connections }
    let s2 := match lookupKey connection.owning_channel s1.active_channels with
      | some x =>
        let x1 := { x with
          tcp_connections := x.tcp_connections.filter (fun c => c != connection_id) }
        { s1 with active_channels := insertKey connection.owning_channel x1 s1.active_channels }
      | none => s1
    (some (ServerOperation.SendMessageToDsrpClient
      (ServerMessage.TcpConnectionClosed connection.owning_channel connection_id)), s2)

/-- Inbound TCP payload relay (ServerHandler::tcp_data_received,
server_handler/mod.rs lines 279-296; takes &self, so no state is returned). -/
def tcp_data_received (s : ServerHandler) (connection_id : Nat) (data : List Nat) :
    Option ServerOperation :=
  match lookupKey connection_id s.active_tcp_connections with
  | none => none
  | some connection =>
    some (ServerOperation.SendMessageToDsrpClient
      (ServerMessage.DataReceived connection.owning_channel (some connection_id) data))

/-- Inbound UDP payload relay (ServerHandler::udp_data_received,
server_handler/mod.rs lines 298-314; takes &self, so no state is returned,
and only channel existence is checked, never the channel's connection type). -/
def udp_data_received (s : ServerHandler) (channel_id : Nat) (data : List Nat) :
    Option ServerOperation :=
  if ¬ (lookupKey channel_id s.active_channels).isSome then none
  else
    some (ServerOperation.SendMessageToDsrpClient
      (ServerMessage.DataReceived channel_id none data))

/-! Client handler (src/dsrp-core/src/client_handler). -/

/-- Outstanding registration record (client_handler/data_structures.rs). -/
inductive OutstandingRequest where
  | Registration (connection_type : ConnectionType) (port : Nat)
deriving DecidableEq

/-- Operations the client handler instructs its embedder to perform
(client_handler/data_structures.rs). -/
inductive ClientOperation where
  | NotifyChannelOpened (registered_by_request : Nat) (opened_channel : Nat)
  | SendMessageToServer (message : ClientMessage)
  | CreateTcpConnectionForChannel (channel : Nat) (new_connection : Nat)
  | NotifyRegistrationFailed (request : Nat) (cause : RegistrationFailureCause)
  | CloseTcpConnection (channel : Nat) (connection : Nat)
  | RelayRemotePacket (channel : Nat) (connection : Option Nat) (data : List Nat)
deriving DecidableEq

/-- Error kind of handle_server_message (client_handler/errors.rs). -/
inductive ServerMessageHandlingErrorKind where
  | UnknownRequest (request : Nat)
deriving DecidableEq

/-- The client handler state (struct ClientHandler). -/
structure ClientHandler where
  outstanding_requests : List (Nat × OutstandingRequest)
  next_request_id : Nat
deriving DecidableEq

/-- Fresh client handler together with the handshake request to send first
(ClientHandler::new, client_handler/mod.rs lines 19-28). -/
def ClientHandler.new : ClientHandler × HandshakeRequest :=
  ({ outstanding_requests := [], next_request_id := 0 },
   { client_protocol_version := CURRENT_PROTOCOL_VERSION })

/-- Creation of a Register message (ClientHandler::request_registration,
client_handler/mod.rs lines 30-52), with the same fueled wrapping-counter
allocation loop as the server side. -/
def request_registration (c : ClientHandler) (connection_type : ConnectionType) (port : Nat) :
    Option ((Nat × ClientMessage) × ClientHandler) :=
  match allocId c.next_request_id (keysOf c.outstanding_requests) with
  | none => none
  | some request_id =>
    some ((request_id, ClientMessage.Register request_id connection_type port),
      { c with
        next_request_id := request_id
        outstanding_requests := insertKey request_id
          (OutstandingRequest.Registration connection_type port) c.outstanding_requests })

/-- Server-message dispatch of the client handler
(ClientHandler::handle_server_message, client_handler/mod.rs lines 54-91).
The source first calls remove on the outstanding-request map and errors when
nothing was removed; every arm other than RegistrationSuccessful is
`unimplemented!()` and never returns, modelled as `none`. -/
def handle_server_message (c : ClientHandler) (message : ServerMessage) :
    Option (Except ServerMessageHandlingErrorKind (List ClientOperation) × ClientHandler) :=
  match message with
  | ServerMessage.RegistrationSuccessful request created_channel =>
    let removed := lookupKey request c.outstanding_requests
    let c1 := { c with outstanding_requests := eraseKey request c.outstanding_requests }
    match removed with
    | none =>
      some (Except.error (ServerMessageHandlingErrorKind.UnknownRequest request), c1)
    | some _ =>
      some (Except.ok [ClientOperation.NotifyChannelOpened request created_channel], c1)
  | _ => none

/-- Modelled from the spec: the server handler's handling of the
`DataBeingSent` client message. The arm is `unimplemented!()` in the source
(src/dsrp-core/src/server_handler/mod.rs lines 208-210); only the
`SendByteData` operation it should emit is declared
(server_handler/data_structures.rs lines 76-80). Spec section 4.2: validate
that the channel exists and is owned by the sender; for a TCP channel the
connection must be present and belong to this channel; for a UDP channel the
connection must be absent; any validation failure yields an empty operation
list, success emits exactly one `SendByteData{channel, connection, data}`. -/
def handle_data_being_sent (s : ServerHandler) (client_id : Nat) (channel : Nat)
    (connection : Option Nat) (data : List Nat) : List ServerOperation :=
  match lookupKey channel s.active_channels with
  | none => []
  | some channel_details =>
    if channel_details.owner ≠ client_id then []
    else
      match channel_details.connection_type, connection with
      | ConnectionType.Tcp, some c =>
        if c ∈ channel_details.tcp_connections then
          [ServerOperation.SendByteData channel (some c) data]
        else []
      | ConnectionType.Tcp, none => []
      | ConnectionType.Udp, none => [ServerOperation.SendByteData channel none data]
      | ConnectionType.Udp, some _ => []

/-! Handshake-response codec (src/dsrp-core/src/handshake/handshake_response.rs). -/

/-- The five magic bytes "DSRPB" heading every handshake response (the
HANDSHAKE_RESPONSE_ PREFIX constant of handshake/mod.rs). -/
def HANDSHAKE_RESPONSE_MAGIC : List Nat := [68, 83, 82, 80, 66]

/-- Generation error kind (handshake_response.rs). -/
inductive HandshakeResponseGenerationErrorKind where
  | FailureMessageTooLong
deriving DecidableEq

/-- Parse error kinds (handshake_response.rs); InvalidMagic is the source's
invalid-magic-bytes error, FromUtf8Failure its FromUtf8Error wrapper; the Io
variant cannot arise when parsing an in-memory slice and is omitted. -/
inductive HandshakeResponseParseErrorKind where
  | NotEnoughBytes
  | InvalidMagic
  | InvalidMarkerByte (marker : Nat)
  | FromUtf8Failure
deriving DecidableEq

/-- Continuation-byte test of the UTF-8 validator. -/
def isUtf8Cont (b : Nat) : Bool := 128 ≤ b && b ≤ 191

/-- Validity of a byte list as UTF-8, mirroring what Rust's
`String::from_utf8` accepts (RFC 3629 table: no overlong forms, no
surrogates, nothing above U+10FFFF). Every Rust `String` satisfies this for
its underlying bytes. -/
def utf8Valid : List Nat → Bool
  | [] => true
  | b :: rest =>
    if b ≤ 127 then utf8Valid rest
    else if 194 ≤ b && b ≤ 223 then
      match rest with
      | c1 :: r => isUtf8Cont c1 && utf8Valid r
      | [] => false
    else if b = 224 then
      match rest with
      | c1 :: c2 :: r => (160 ≤ c1 && c1 ≤ 191) && isUtf8Cont c2 && utf8Valid r
      | _ => false
    else if 225 ≤ b && b ≤ 236 then
      match rest with
      | c1 :: c2 :: r => isUtf8Cont c1 && isUtf8Cont c2 && utf8Valid r
      | _ => false
    else if b = 237 then
      match rest with
      | c1 :: c2 :: r => (128 ≤ c1 && c1 ≤ 159) && isUtf8Cont c2 && utf8Valid r
      | _ => false
    else if 238 ≤ b && b ≤ 239 then
      match rest with
      | c1 :: c2 :: r => isUtf8Cont c1 && isUtf8Cont c2 && utf8Valid r
      | _ => false
    else if b = 240 then
      match rest with
      | c1 :: c2 :: c3 :: r =>
        (144 ≤ c1 && c1 ≤ 191) && isUtf8Cont c2 && isUtf8Cont c3 && utf8Valid r
      | _ => false
    else if 241 ≤ b && b ≤ 243 then
      match rest with
      | c1 :: c2 :: c3 :: r => isUtf8Cont c1 && isUtf8Cont c2 && isUtf8Cont c3 && utf8Valid r
      | _ => false
    else if b = 244 then
      match rest with
      | c1 :: c2 :: c3 :: r =>
        (128 ≤ c1 && c1 ≤ 143) && isUtf8Cont c2 && isUtf8Cont c3 && utf8Valid r
      | _ => false
    else false

/-- Serialization of a handshake response (HandshakeResponse::into_bytes,
handshake_response.rs lines 48-70): the magic bytes, then marker 128 for
success, or the reason length (which must be under 128) followed by the
reason bytes. -/
def into_bytes : HandshakeResponse →
    Except HandshakeResponseGenerationErrorKind (List Nat)
  | HandshakeResponse.Success => Except.ok (HANDSHAKE_RESPONSE_MAGIC ++ [128])
  | HandshakeResponse.Failure reason =>
    if reason.length ≥ 128 then
      Except.error HandshakeResponseGenerationErrorKind.FailureMessageTooLong
    else Except.ok (HANDSHAKE_RESPONSE_MAGIC ++ [reason.length] ++ reason)

/-- Parsing of a handshake response (HandshakeResponse::from_bytes,
handshake_response.rs lines 72-118): returns the decoded response together
with the unread remainder of the input. -/
def from_bytes (bytes : List Nat) :
    Except HandshakeResponseParseErrorKind (HandshakeResponse × List Nat) :=
  let handshake_length := HANDSHAKE_RESPONSE_MAGIC.length
  if bytes.length < handshake_length + 1 then
    Except.error HandshakeResponseParseErrorKind.NotEnoughBytes
  else if bytes.take handshake_length ≠ HANDSHAKE_RESPONSE_MAGIC then
    Except.error HandshakeResponseParseErrorKind.InvalidMagic
  else
    let marker := bytes.getD handshake_length 0
    if 128 < marker then
      Except.error (HandshakeResponseParseErrorKind.InvalidMarkerByte marker)
    else if marker = 128 then
      Except.ok (HandshakeResponse.Success, bytes.drop (handshake_length + 1))
    else
      let start_index := handshake_length + 1
      let end_index := start_index + marker
      if bytes.length < end_index then
        Except.error HandshakeResponseParseErrorKind.NotEnoughBytes
      else
        let reason_bytes := (bytes.drop start_index).take marker
        if utf8Valid reason_bytes then
          Except.ok (HandshakeResponse.Failure reason_bytes, bytes.drop end_index)
        else Except.error HandshakeResponseParseErrorKind.FromUtf8Failure

/-! Trace semantics: one constructor per public entry point of the server
handler, so that properties over every sequence of public calls can be
stated. A step yields the successor state and the list of operations the
call hands to the embedder (error returns hand over none). -/

/-- One public call into the server handler. -/
inductive ServerCall where
  | addClient (request : HandshakeRequest)
  | removeClient (client_id : Nat)
  | clientMsg (client_id : Nat) (message : ClientMessage)
  | newTcpConn (channel_id : Nat)
  | tcpDisconnected (connection_id : Nat)
  | tcpData (connection_id : Nat) (data : List Nat)
  | udpData (channel_id : Nat) (data : List Nat)
deriving DecidableEq

/-- Effect of one public call: successor state plus emitted operations;
`none` when the underlying call does not return. -/
def serverStep (s : ServerHandler) : ServerCall → Option (ServerHandler × List ServerOperation)
  | ServerCall.addClient request =>
    (add_dsrp_client s request).map (fun r => (r.2, []))
  | ServerCall.removeClient client_id =>
    let r := remove_dsrp_client s client_id
    some (r.2, r.1)
  | ServerCall.clientMsg client_id message =>
    (handle_client_message s client_id message).map (fun r =>
      (r.2, match r.1 with | Except.ok ops => ops | Except.error _ => []))
  | ServerCall.newTcpConn channel_id =>
    (new_channel_tcp_connection s channel_id).map (fun r =>
      (r.2, match r.1 with | Except.ok p => [p.2] | Except.error _ => []))
  | ServerCall.tcpDisconnected connection_id =>
    let r := tcp_connection_disconnected s connection_id
    some (r.2, r.1.toList)
  | ServerCall.tcpData connection_id data =>
    some (s, (tcp_data_received s connection_id data).toList)
  | ServerCall.udpData channel_id data =>
    some (s, (udp_data_received s channel_id data).toList)

/-- Run of a sequence of public calls, collecting every emitted operation in
order; `none` as soon as one call does not return. -/
def runServer (s : ServerHandler) : List ServerCall → Option (ServerHandler × List ServerOperation)
  | [] => some (s, [])
  | c :: rest =>
    match serverStep s c with
    | none => none
    | some (s1, ops) =>
      match runServer s1 rest with
      | none => none
      | some (s2, ops2) => some (s2, ops ++ ops2)

/-! Projections used to state the at-most-one-registration-response-per-request
property: the request ids carried by RegistrationSuccessful operations, by
RegistrationFailed operations, by either, and by the Register messages of a
call sequence. -/

/-- Request ids of the RegistrationSuccessful messages among emitted operations. -/
def successRequestIds (ops : List ServerOperation) : List Nat :=
  ops.filterMap (fun op => match op with
    | ServerOperation.SendMessageToDsrpClient
        (ServerMessage.RegistrationSuccessful request _) => some request
    | _ => none)

/-- Request ids of the RegistrationFailed messages among emitted operations. -/
def failRequestIds (ops : List ServerOperation) : List Nat :=
  ops.filterMap (fun op => match op with
    | ServerOperation.SendMessageToDsrpClient
        (ServerMessage.RegistrationFailed request _) => some request
    | _ => none)

/-- Request ids of registration responses of either polarity. -/
def responseRequestIds (ops : List ServerOperation) : List Nat :=
  ops.filterMap (fun op => match op with
    | ServerOperation.SendMessageToDsrpClient
        (ServerMessage.RegistrationSuccessful request _) => some request
    | ServerOperation.SendMessageToDsrpClient
        (ServerMessage.RegistrationFailed request _) => some request
    | _ => none)

/-- Request ids of the Register messages within a sequence of calls. -/
def registerRequestIds (calls : List ServerCall) : List Nat :=
  calls.filterMap (fun c => match c with
    | ServerCall.clientMsg _ (ClientMessage.Register request _ _) => some request
    | _ => none)

/-- The port-index invariant: active_ports is exactly the inverse of
active_channels projected on port — every live channel's port maps back to
that channel, and every port entry names a live channel carrying that
port. -/
def PortsChannelsInverse (s : ServerHandler) : Prop :=
  (∀ channel ach, lookupKey channel s.active_channels = some ach →
    lookupKey ach.port s.active_ports = some channel) ∧
  (∀ port channel, lookupKey port s.active_ports = some channel →
    ∃ ach, lookupKey channel s.active_channels = some ach ∧ ach.port = port)

/-! Concrete sample states used by counterexamples and witnesses. -/

/-- Sample state with one registered client of id 1: the state add_dsrp_client
produces from a fresh handler. -/
def serverWithOneClient : ServerHandler :=
  { ServerHandler.new with
    active_clients := [(1, { channels := [] })]
    next_client_id := 1 }

/-- Sample channel record: TCP channel on port 23 owned by client 1 with one
live connection of id 1. -/
def sampleTcpChannel : ActiveChannel :=
  { port := 23, connection_type := ConnectionType.Tcp, owner := 1, tcp_connections := [1] }

/-- Sample state in which client 1 owns TCP channel 1 on port 23 with one
live connection of id 1: the state reached from a fresh handler by
add_dsrp_client, a TCP Register of port 23 and new_channel_tcp_connection. -/
def serverWithTcpChannel : ServerHandler :=
  { active_clients := [(1, { channels := [1] })]
    active_ports := [(23, 1)]
    active_channels := [(1, sampleTcpChannel)]
    active_tcp_connections := [(1, { owning_channel := 1 })]
    next_client_id := 1
    next_channel_id := 1
    next_connection_id := 1 }

/-! Helper lemmas about the map and allocation models. -/

theorem lookupKey_eq_none_iff {α : Type} (k : Nat) (m : List (Nat × α)) :
    lookupKey k m = none ↔ ∀ p ∈ m, p.1 ≠ k := by
  induction m with
  | nil => simp [lookupKey]
  | cons hd tl ih =>
    obtain ⟨k', v⟩ := hd
    by_cases h : k' = k
    · subst h
      simp [lookupKey]
    · simp [lookupKey, h, ih]

theorem lookupKey_isSome_iff_mem_keysOf {α : Type} (k : Nat) (m : List (Nat × α)) :
    (lookupKey k m).isSome ↔ k ∈ keysOf m := by
  rw [Option.isSome_iff_ne_none, Ne, lookupKey_eq_none_iff]
  simp only [keysOf, List.mem_map]
  push_neg
  tauto

theorem lookupKey_eq_none_of_not_mem_keysOf {α : Type} {k : Nat} {m : List (Nat × α)}
    (h : k ∉ keysOf m) : lookupKey k m = none := by
  cases hl : lookupKey k m with
  | none => rfl
  | some v =>
    exact absurd ((lookupKey_isSome_iff_mem_keysOf k m).1 (by simp [hl])) h

theorem lookupKey_eraseKey_self {α : Type} (k : Nat) (m : List (Nat × α)) :
    lookupKey k (eraseKey k m) = none := by
  rw [lookupKey_eq_none_iff]
  intro p hp
  have := List.of_mem_filter hp
  simpa using this

theorem lookupKey_eraseKey_ne {α : Type} {k k' : Nat} (m : List (Nat × α))
    (h : k' ≠ k) : lookupKey k' (eraseKey k m) = lookupKey k' m := by
  induction m with
  | nil => rfl
  | cons hd tl ih =>
    obtain ⟨k0, v⟩ := hd
    by_cases hk : k0 = k
    · subst hk
      have : k0 ≠ k' := fun hc => h (hc ▸ rfl)
      simp [eraseKey, lookupKey, this]
      simpa [eraseKey] using ih
    · by_cases hk' : k0 = k'
      · subst hk'
        simp [eraseKey, lookupKey, hk]
      · simp [eraseKey, lookupKey, hk, hk'] at ih ⊢
        exact ih

theorem lookupKey_insertKey_self {α : Type} (k : Nat) (v : α) (m : List (Nat × α)) :
    lookupKey k (insertKey k v m) = some v := by
  simp [insertKey, lookupKey]

theorem lookupKey_insertKey_ne {α : Type} {k k' : Nat} (v : α) (m : List (Nat × α))
    (h : k' ≠ k) : lookupKey k' (insertKey k v m) = lookupKey k' m := by
  have : k ≠ k' := fun hc => h (hc ▸ rfl)
  simp [insertKey, lookupKey, this]
  exact lookupKey_eraseKey_ne m h

theorem eraseKey_of_lookupKey_none {α : Type} {k : Nat} {m : List (Nat × α)}
    (h : lookupKey k m = none) : eraseKey k m = m := by
  rw [lookupKey_eq_none_iff] at h
  apply List.filter_eq_self.2
  intro p hp
  simpa using h p hp

theorem allocIdAux_not_mem {live : List Nat} :
    ∀ {fuel next id : Nat}, allocIdAux live fuel next = some id → id ∉ live := by
  intro fuel
  induction fuel with
  | zero => intro next id h; simp [allocIdAux] at h
  | succ n ih =>
    intro next id h
    by_cases hc : (next + 1) % W32 ∈ live
    · exact ih (by simpa [allocIdAux, hc] using h)
    · have : id = (next + 1) % W32 := by
        simpa [allocIdAux, hc] using h.symm
      exact this ▸ hc

theorem allocIdAux_lt {live : List Nat} :
    ∀ {fuel next id : Nat}, allocIdAux live fuel next = some id → id < W32 := by
  intro fuel
  induction fuel with
  | zero => intro next id h; simp [allocIdAux] at h
  | succ n ih =>
    intro next id h
    by_cases hc : (next + 1) % W32 ∈ live
    · exact ih (by simpa [allocIdAux, hc] using h)
    · have : id = (next + 1) % W32 := by
        simpa [allocIdAux, hc] using h.symm
      have hpos : 0 < W32 := by decide
      exact this ▸ Nat.mod_lt _ hpos

theorem allocIdAux_total {live : List Nat} {r : Nat} (hfree : r ∉ live) (_hr : r < W32) :
    ∀ d fuel next, 1 ≤ d → d ≤ fuel → (next + d) % W32 = r →
      (allocIdAux live fuel next).isSome := by
  intro d
  induction d with
  | zero => intro fuel next h1 _ _; omega
  | succ d ih =>
    intro fuel next _ hfuel hmod
    obtain ⟨f, rfl⟩ : ∃ f, fuel = f + 1 := ⟨fuel - 1, by omega⟩
    by_cases hc : (next + 1) % W32 ∈ live
    · rcases Nat.eq_zero_or_pos d with hd0 | hdpos
      · subst hd0
        exact absurd (hmod ▸ hc) hfree
      · have hstep : ((next + 1) % W32 + d) % W32 = r := by
          rw [Nat.mod_add_mod]
          have : next + 1 + d = next + (d + 1) := by omega
          rw [this]
          exact hmod
        have := ih f ((next + 1) % W32) hdpos (by omega) hstep
        simpa [allocIdAux, hc] using this
    · simp [allocIdAux, hc]

theorem exists_cyclic_distance (a r : Nat) (hr : r < W32) :
    ∃ d, 1 ≤ d ∧ d ≤ W32 ∧ (a + d) % W32 = r := by
  have hpos : 0 < W32 := by decide
  have hn : a % W32 < W32 := Nat.mod_lt _ hpos
  by_cases h : a % W32 < r
  · refine ⟨r - a % W32, by omega, by omega, ?_⟩
    rw [← Nat.mod_add_mod, Nat.mod_eq_of_lt (by omega)]
    omega
  · refine ⟨W32 + r - a % W32, by omega, by omega, ?_⟩
    rw [← Nat.mod_add_mod]
    have hsum : a % W32 + (W32 + r - a % W32) = W32 + r := by omega
    rw [hsum, Nat.add_mod_left, Nat.mod_eq_of_lt hr]

theorem allocId_isSome {live : List Nat} {r : Nat} (hfree : r ∉ live) (hr : r < W32)
    (next : Nat) : (allocId next live).isSome := by
  obtain ⟨d, h1, h2, h3⟩ := exists_cyclic_distance next r hr
  exact allocIdAux_total hfree hr d W32 next h1 h2 h3

theorem allocId_not_mem {live : List Nat} {next id : Nat}
    (h : allocId next live = some id) : id ∉ live :=
  allocIdAux_not_mem h

/-! Claim theorems. -/

/-- C10: udp_data_received never checks the channel's connection type: for
every channel id present in active_channels — including a channel registered
as TCP, since the hypothesis places no constraint on the record's
connection_type — it answers SendMessageToDsrpClient (DataReceived channel
none data) with the data intact, and it answers none exactly when the channel
id is unknown. The function takes &self in the source and correspondingly
returns no state here, so it cannot mutate the handler. -/
theorem udp_data_received_relays_iff_channel_known :
    ∀ (s : ServerHandler) (channel_id : Nat) (data : List Nat),
      (∀ ach, lookupKey channel_id s.active_channels = some ach →
        udp_data_received s channel_id data =
          some (ServerOperation.SendMessageToDsrpClient
            (ServerMessage.DataReceived channel_id none data))) ∧
      (lookupKey channel_id s.active_channels = none →
        udp_data_received s channel_id data = none) := by
  intro s channel_id data
  constructor
  · intro ach h
    simp [udp_data_received, h]
  · intro h
    simp [udp_data_received, h]

/-- Witness for C10 at a concrete state whose channel 1 is a TCP channel. -/
theorem udp_data_received_relays_iff_channel_known_witness :
    lookupKey 1 serverWithTcpChannel.active_channels = some sampleTcpChannel ∧
    udp_data_received serverWithTcpChannel 1 [1, 2, 3] =
      some (ServerOperation.SendMessageToDsrpClient
        (ServerMessage.DataReceived 1 none [1, 2, 3])) :=
  ⟨by decide,
   (udp_data_received_relays_iff_channel_known serverWithTcpChannel 1 [1, 2, 3]).1
     sampleTcpChannel (by decide)⟩

/-- C2: the spec-modelled DataBeingSent handling (the arm is unimplemented in
the source). When the channel exists and is owned by the sender, and the
connection is present and belongs to the channel for TCP while absent for
UDP, exactly one SendByteData carrying the same channel, connection and data
is produced; when the channel is unknown, or any of the validations fail, the
operation list is empty. The function is total, so it always returns. -/
theorem handle_data_being_sent_spec :
    ∀ (s : ServerHandler) (client_id channel : Nat) (connection : Option Nat) (data : List Nat),
      (∀ channel_details, lookupKey channel s.active_channels = some channel_details →
        channel_details.owner = client_id →
        ((channel_details.connection_type = ConnectionType.Tcp ∧
            ∃ c, connection = some c ∧ c ∈ channel_details.tcp_connections) ∨
          (channel_details.connection_type = ConnectionType.Udp ∧ connection = none)) →
        handle_data_being_sent s client_id channel connection data =
          [ServerOperation.SendByteData channel connection data]) ∧
      (lookupKey channel s.active_channels = none →
        handle_data_being_sent s client_id channel connection data = []) ∧
      (∀ channel_details, lookupKey channel s.active_channels = some channel_details →
        (channel_details.owner ≠ client_id ∨
          (channel_details.connection_type = ConnectionType.Tcp ∧ connection = none) ∨
          (channel_details.connection_type = ConnectionType.Tcp ∧
            ∃ c, connection = some c ∧ c ∉ channel_details.tcp_connections) ∨
          (channel_details.connection_type = ConnectionType.Udp ∧ connection ≠ none)) →
        handle_data_being_sent s client_id channel connection data = []) := by
  intro s client_id channel connection data
  refine ⟨?_, ?_, ?_⟩
  · intro cd hcd howner hvalid
    rcases hvalid with ⟨htcp, c, hc, hmem⟩ | ⟨hudp, hnone⟩
    · subst hc
      simp [handle_data_being_sent, hcd, howner, htcp, hmem]
    · subst hnone
      simp [handle_data_being_sent, hcd, howner, hudp]
  · intro h
    simp [handle_data_being_sent, h]
  · intro cd hcd hbad
    rcases hbad with howner | ⟨htcp, hnone⟩ | ⟨htcp, c, hc, hmem⟩ | ⟨hudp, hsome⟩
    · simp [handle_data_being_sent, hcd, howner]
    · subst hnone
      simp [handle_data_being_sent, hcd, htcp]
    · subst hc
      simp [handle_data_being_sent, hcd, htcp]
      intro howner
      simp [hmem]
    · obtain ⟨c, hc⟩ := Option.ne_none_iff_exists.1 hsome
      rw [← hc] at *
      simp [handle_data_being_sent, hcd, hudp]

/-- Witness for C2 at a concrete state: a valid TCP send and an invalid one. -/
theorem handle_data_being_sent_spec_witness :
    lookupKey 1 serverWithTcpChannel.active_channels = some sampleTcpChannel ∧
    handle_data_being_sent serverWithTcpChannel 1 1 (some 1) [5, 6] =
      [ServerOperation.SendByteData 1 (some 1) [5, 6]] :=
  ⟨by decide,
   (handle_data_being_sent_spec serverWithTcpChannel 1 1 (some 1) [5, 6]).1
     sampleTcpChannel (by decide) (by decide)
     (Or.inl ⟨by decide, 1, rfl, by decide⟩)⟩

/-- C5: every call that returns an error leaves the handler state exactly as
it was: handle_client_message on UnknownClientId / ChannelNotFound /
ChannelNotOwnedByRequester, new_channel_tcp_connection on either of its
errors, add_dsrp_client on a Failure handshake response, and the client
handler's handle_server_message on UnknownRequest all hand back the input
state unchanged. -/
theorem error_returns_do_not_mutate :
    (∀ (s : ServerHandler) (client_id : Nat) (message : ClientMessage)
        (e : ClientMessageHandlingErrorKind) (s' : ServerHandler),
      handle_client_message s client_id message = some (Except.error e, s') → s' = s) ∧
    (∀ (s : ServerHandler) (channel_id : Nat) (e : NewConnectionErrorKind) (s' : ServerHandler),
      new_channel_tcp_connection s channel_id = some (Except.error e, s') → s' = s) ∧
    (∀ (s : ServerHandler) (request : HandshakeRequest) (r : HandshakeResponse)
        (s' : ServerHandler),
      add_dsrp_client s request = some (Except.error r, s') → s' = s) ∧
    (∀ (c : ClientHandler) (message : ServerMessage) (e : ServerMessageHandlingErrorKind)
        (c' : ClientHandler),
      handle_server_message c message = some (Except.error e, c') → c' = c) := by
  refine ⟨?_, ?_, ?_, ?_⟩
  · intro s client_id message e s' h
    unfold handle_client_message handle_dsrp_client_disconnection_notification at h
    repeat' split at h
    all_goals try (cases hlc : lookupKey client_id s.active_clients)
    all_goals simp_all
  · intro s channel_id e s' h
    unfold new_channel_tcp_connection at h
    repeat' split at h
    all_goals simp_all
  · intro s request r s' h
    unfold add_dsrp_client at h
    repeat' split at h
    all_goals simp_all
  · intro c message e c' h
    unfold handle_server_message at h
    split at h
    case _ request created_channel =>
      simp only at h
      split at h
      case _ hnone =>
        simp only [Option.some.injEq, Prod.mk.injEq] at h
        rw [← h.2, eraseKey_of_lookupKey_none hnone]
      case _ => simp at h
    all_goals simp_all

/-- Witness for C5: a message from an unknown client errors and the state is
handed back unchanged. -/
theorem error_returns_do_not_mutate_witness :
    handle_client_message serverWithOneClient 5 (ClientMessage.Unregister 0) =
      some (Except.error (ClientMessageHandlingErrorKind.UnknownClientId 5),
        serverWithOneClient) ∧
    serverWithOneClient = serverWithOneClient :=
  ⟨by decide,
   error_returns_do_not_mutate.1 serverWithOneClient 5 (ClientMessage.Unregister 0)
     (ClientMessageHandlingErrorKind.UnknownClientId 5) serverWithOneClient (by decide)⟩

/-- Dropping six heads plus n more elements from a six-cons list. -/
theorem drop_cons6 {α : Type} (k n : Nat) (a b c d e f : α) (t : List α)
    (h : k = 6 + n) : List.drop k (a :: b :: c :: d :: e :: f :: t) = List.drop n t := by
  subst h
  rw [show 6 + n = n + 1 + 1 + 1 + 1 + 1 + 1 from by omega]
  simp only [List.drop_succ_cons]

/-- C9: round trip of the handshake-response codec. For every response whose
reason (when it is a Failure) is shorter than 128 bytes and is valid UTF-8
(the invariant every Rust String carries for its bytes), and for every byte
suffix x, serializing and then parsing with x appended succeeds, recovers the
response exactly, and returns the suffix x untouched as the remainder. -/
theorem handshake_response_round_trip :
    ∀ (r : HandshakeResponse) (x : List Nat),
      (match r with
       | HandshakeResponse.Success => True
       | HandshakeResponse.Failure reason =>
         reason.length < 128 ∧ utf8Valid reason = true) →
      ∃ bytes, into_bytes r = Except.ok bytes ∧
        from_bytes (bytes ++ x) = Except.ok (r, x) := by
  intro r x hr
  cases r with
  | Success =>
    refine ⟨HANDSHAKE_RESPONSE_MAGIC ++ [128], rfl, ?_⟩
    have hassoc : (HANDSHAKE_RESPONSE_MAGIC ++ [128]) ++ x =
        68 :: 83 :: 82 :: 80 :: 66 :: 128 :: x := by
      simp [HANDSHAKE_RESPONSE_MAGIC]
    rw [hassoc]
    unfold from_bytes
    simp only [HANDSHAKE_RESPONSE_MAGIC, List.length_cons, List.length_nil, List.length_append,
      List.getD, List.get?_cons_succ, List.get?_cons_zero,
      List.getElem?_cons_succ, List.getElem?_cons_zero, Option.getD_some,
      List.take_succ_cons, List.take_zero, List.drop_succ_cons, List.drop_zero, ne_eq]
    rw [if_neg (by omega)]
    rw [if_neg (by simp)]
    rw [if_neg (by omega)]
    rw [if_pos trivial]
  | Failure reason =>
    obtain ⟨hlen, hvalid⟩ := hr
    have hnot : ¬ reason.length ≥ 128 := by omega
    refine ⟨HANDSHAKE_RESPONSE_MAGIC ++ [reason.length] ++ reason,
      by simp [into_bytes, hnot], ?_⟩
    have hassoc : (HANDSHAKE_RESPONSE_MAGIC ++ [reason.length] ++ reason) ++ x =
        68 :: 83 :: 82 :: 80 :: 66 :: reason.length :: (reason ++ x) := by
      simp [HANDSHAKE_RESPONSE_MAGIC]
    rw [hassoc]
    unfold from_bytes
    have htake : (reason ++ x).take reason.length = reason := List.take_left reason x
    have hdrop : (reason ++ x).drop reason.length = x := List.drop_left reason x
    simp only [HANDSHAKE_RESPONSE_MAGIC, List.length_cons, List.length_nil, List.length_append,
      List.getD, List.get?_cons_succ, List.get?_cons_zero,
      List.getElem?_cons_succ, List.getElem?_cons_zero, Option.getD_some,
      List.take_succ_cons, List.take_zero, List.drop_succ_cons, List.drop_zero, ne_eq]
    rw [if_neg (by omega)]
    rw [if_neg (by simp)]
    rw [if_neg (by omega)]
    rw [if_neg (by omega)]
    rw [if_neg (by omega)]
    rw [if_pos (by rw [htake]; exact hvalid)]
    rw [htake, drop_cons6 _ reason.length 68 83 82 80 66 reason.length (reason ++ x)
      (by omega), hdrop]

/-- Witness for C9 at a concrete failure response and suffix. -/
theorem handshake_response_round_trip_witness :
    (match HandshakeResponse.Failure [97, 98] with
     | HandshakeResponse.Success => True
     | HandshakeResponse.Failure reason =>
       reason.length < 128 ∧ utf8Valid reason = true) ∧
    ∃ bytes, into_bytes (HandshakeResponse.Failure [97, 98]) = Except.ok bytes ∧
      from_bytes (bytes ++ [9, 9]) = Except.ok (HandshakeResponse.Failure [97, 98], [9, 9]) :=
  ⟨⟨by decide, by decide⟩,
   handshake_response_round_trip (HandshakeResponse.Failure [97, 98]) [9, 9]
     ⟨by decide, by decide⟩⟩

/-- C1 (counterexample): in the source the registration success message is
not deferred. At a state with known client 1 and free port 23, the Register
arm answers TWO operations, the second of which is a SendMessageToDsrpClient
carrying RegistrationSuccessful, refuting both the exactly-one-operation part
and the no-success-message-at-registration part of the claim (the source has
no socket_binding_successful at all). -/
theorem register_emits_success_immediately_counterexample :
    (handle_client_message serverWithOneClient 1
        (ClientMessage.Register 25 ConnectionType.Tcp 23)).map Prod.fst =
      some (Except.ok [ServerOperation.StartTcpOperations 23 1,
        ServerOperation.SendMessageToDsrpClient
          (ServerMessage.RegistrationSuccessful 25 1)]) ∧
    lookupKey 1 serverWithOneClient.active_clients = some { channels := [] } ∧
    lookupKey 23 serverWithOneClient.active_ports = none :=
  ⟨by decide, by decide, by decide⟩

/-- C1 (amended): for every state with a known client and a port not already
reserved, when the channel-id allocation answers channel_id the Register arm
returns exactly two operations — the StartTcpOperations or StartUdpOperations
matching the requested connection type, followed by a SendMessageToDsrpClient
carrying RegistrationSuccessful — so the success message is emitted at
registration time rather than deferred. -/
theorem register_fresh_port_emits_start_then_success :
    ∀ (s : ServerHandler) (client_id : Nat) (cl : ActiveClient) (request : Nat)
      (connection_type : ConnectionType) (port channel_id : Nat),
      lookupKey client_id s.active_clients = some cl →
      lookupKey port s.active_ports = none →
      allocId s.next_channel_id (keysOf s.active_channels) = some channel_id →
      (handle_client_message s client_id
          (ClientMessage.Register request connection_type port)).map Prod.fst =
        some (Except.ok
          [(match connection_type with
            | ConnectionType.Tcp => ServerOperation.StartTcpOperations port channel_id
            | ConnectionType.Udp => ServerOperation.StartUdpOperations port channel_id),
           ServerOperation.SendMessageToDsrpClient
             (ServerMessage.RegistrationSuccessful request channel_id)]) := by
  intro s client_id cl request connection_type port channel_id hcl hport halloc
  unfold handle_client_message
  simp [hcl, hport, halloc]

/-- Witness for the amended C1 at a concrete state and allocation. -/
theorem register_fresh_port_emits_start_then_success_witness :
    lookupKey 1 serverWithOneClient.active_clients = some { channels := [] } ∧
    lookupKey 23 serverWithOneClient.active_ports = none ∧
    allocId serverWithOneClient.next_channel_id (keysOf serverWithOneClient.active_channels) =
      some 1 ∧
    (handle_client_message serverWithOneClient 1
        (ClientMessage.Register 25 ConnectionType.Udp 23)).map Prod.fst =
      some (Except.ok [ServerOperation.StartUdpOperations 23 1,
        ServerOperation.SendMessageToDsrpClient
          (ServerMessage.RegistrationSuccessful 25 1)]) :=
  ⟨by decide, by decide, by decide,
   register_fresh_port_emits_start_then_success serverWithOneClient 1 { channels := [] } 25
     ConnectionType.Udp 23 1 (by decide) (by decide) (by decide)⟩

theorem lookupKey_foldl_eraseKey_not_mem {α : Type} (cs : List Nat) :
    ∀ (m : List (Nat × α)) (c : Nat), c ∉ cs →
      lookupKey c (cs.foldl (fun acc k => eraseKey k acc) m) = lookupKey c m := by
  induction cs with
  | nil => intro m c _; rfl
  | cons k rest ih =>
    intro m c hc
    have hck : c ≠ k := fun h => hc (h ▸ List.mem_cons_self k rest)
    have hcr : c ∉ rest := fun h => hc (List.mem_cons_of_mem k h)
    simp only [List.foldl_cons]
    rw [ih (eraseKey k m) c hcr, lookupKey_eraseKey_ne m hck]

theorem lookupKey_foldl_eraseKey_mem {α : Type} (cs : List Nat) :
    ∀ (m : List (Nat × α)) (c : Nat), c ∈ cs →
      lookupKey c (cs.foldl (fun acc k => eraseKey k acc) m) = none := by
  induction cs with
  | nil => intro m c hc; exact absurd hc (List.not_mem_nil c)
  | cons k rest ih =>
    intro m c hc
    simp only [List.foldl_cons]
    by_cases hcr : c ∈ rest
    · exact ih (eraseKey k m) c hcr
    · have hck : c = k := by
        rcases List.mem_cons.1 hc with h | h
        · exact h
        · exact absurd h hcr
      subst hck
      rw [lookupKey_foldl_eraseKey_not_mem rest (eraseKey c m) c hcr]
      exact lookupKey_eraseKey_self c m

/-- C8: unregistering an owned channel with N live TCP connections answers
exactly one DisconnectConnection per connection of the channel's connection
set followed by exactly one StopTcpOperations or StopUdpOperations for the
channel's port (the stop operation last), and afterwards the channel, its
port reservation and all the connections are gone from the handler state. -/
theorem unregister_disconnects_then_stops :
    ∀ (s : ServerHandler) (client_id channel : Nat) (channel_details : ActiveChannel),
      (lookupKey client_id s.active_clients).isSome →
      lookupKey channel s.active_channels = some channel_details →
      channel_details.owner = client_id →
      ∃ s',
        handle_client_message s client_id (ClientMessage.Unregister channel) =
          some (Except.ok
            (channel_details.tcp_connections.map
                (fun connection => ServerOperation.DisconnectConnection connection) ++
              [match channel_details.connection_type with
               | ConnectionType.Tcp =>
                 ServerOperation.StopTcpOperations channel_details.port
               | ConnectionType.Udp =>
                 ServerOperation.StopUdpOperations channel_details.port]), s') ∧
        lookupKey channel s'.active_channels = none ∧
        lookupKey channel_details.port s'.active_ports = none ∧
        ∀ connection ∈ channel_details.tcp_connections,
          lookupKey connection s'.active_tcp_connections = none := by
  intro s client_id channel channel_details hclient hch howner
  refine ⟨{ s with
      active_tcp_connections := channel_details.tcp_connections.foldl
        (fun acc connection => eraseKey connection acc) s.active_tcp_connections
      active_ports := eraseKey channel_details.port s.active_ports
      active_channels := eraseKey channel s.active_channels }, ?_, ?_, ?_, ?_⟩
  · unfold handle_client_message
    simp [hclient, hch, howner]
  · exact lookupKey_eraseKey_self channel s.active_channels
  · exact lookupKey_eraseKey_self channel_details.port s.active_ports
  · intro connection hconn
    exact lookupKey_foldl_eraseKey_mem channel_details.tcp_connections
      s.active_tcp_connections connection hconn

/-- Witness for C8 at a concrete state with one live connection. -/
theorem unregister_disconnects_then_stops_witness :
    (lookupKey 1 serverWithTcpChannel.active_clients).isSome = true ∧
    lookupKey 1 serverWithTcpChannel.active_channels = some sampleTcpChannel ∧
    ∃ s',
      handle_client_message serverWithTcpChannel 1 (ClientMessage.Unregister 1) =
        some (Except.ok
          (sampleTcpChannel.tcp_connections.map
              (fun connection => ServerOperation.DisconnectConnection connection) ++
            [match sampleTcpChannel.connection_type with
             | ConnectionType.Tcp => ServerOperation.StopTcpOperations sampleTcpChannel.port
             | ConnectionType.Udp => ServerOperation.StopUdpOperations sampleTcpChannel.port]),
          s') ∧
      lookupKey 1 s'.active_channels = none ∧
      lookupKey sampleTcpChannel.port s'.active_ports = none ∧
      ∀ connection ∈ sampleTcpChannel.tcp_connections,
        lookupKey connection s'.active_tcp_connections = none :=
  ⟨by decide, by decide,
   unregister_disconnects_then_stops serverWithTcpChannel 1 1 sampleTcpChannel
     (by decide) (by decide) (by decide)⟩

theorem bind_congr_of_mem {α β : Type} {l : List α} {f g : α → List β}
    (h : ∀ a ∈ l, f a = g a) : l.flatMap f = l.flatMap g := by
  induction l with
  | nil => rfl
  | cons a rest ih =>
    simp only [List.flatMap_cons]
    rw [h a (List.mem_cons_self a rest), ih (fun b hb => h b (List.mem_cons_of_mem a hb))]

theorem disconnectLoop_ops (cs : List Nat) :
    ∀ (s : ServerHandler) (results : List ServerOperation),
      (disconnectLoop cs s results).2 =
        results ++ cs.map (fun connection => ServerOperation.DisconnectConnection connection) := by
  induction cs with
  | nil => intro s results; simp [disconnectLoop]
  | cons c rest ih =>
    intro s results
    simp [disconnectLoop, ih]

theorem disconnectLoop_active_channels (cs : List Nat) :
    ∀ (s : ServerHandler) (results : List ServerOperation),
      (disconnectLoop cs s results).1.active_channels = s.active_channels := by
  induction cs with
  | nil => intro s results; rfl
  | cons c rest ih => intro s results; exact ih _ _

theorem disconnectLoop_active_ports (cs : List Nat) :
    ∀ (s : ServerHandler) (results : List ServerOperation),
      (disconnectLoop cs s results).1.active_ports = s.active_ports := by
  induction cs with
  | nil => intro s results; rfl
  | cons c rest ih => intro s results; exact ih _ _

theorem removeChannelsLoop_ops (chans : List Nat) :
    ∀ (s : ServerHandler) (results : List ServerOperation), chans.Nodup →
      (removeChannelsLoop chans s results).2 =
        results ++ chans.flatMap (fun channel =>
          match lookupKey channel s.active_channels with
          | none => []
          | some active_channel =>
            (match active_channel.connection_type with
             | ConnectionType.Tcp => ServerOperation.StopTcpOperations active_channel.port
             | ConnectionType.Udp => ServerOperation.StopUdpOperations active_channel.port) ::
            active_channel.tcp_connections.map
              (fun connection => ServerOperation.DisconnectConnection connection)) := by
  induction chans with
  | nil => intro s results _; simp [removeChannelsLoop]
  | cons channel rest ih =>
    intro s results hnd
    have hch : channel ∉ rest := (List.nodup_cons.1 hnd).1
    have hndr : rest.Nodup := (List.nodup_cons.1 hnd).2
    cases hlc : lookupKey channel s.active_channels with
    | none =>
      simp only [removeChannelsLoop, hlc]
      rw [ih s results hndr]
      simp [List.flatMap_cons, hlc]
    | some active_channel =>
      simp only [removeChannelsLoop, hlc]
      rw [ih _ _ hndr, disconnectLoop_ops]
      have hcong :
          rest.flatMap (fun ch => match lookupKey ch
              (disconnectLoop active_channel.tcp_connections
                { s with
                  active_channels := eraseKey channel s.active_channels
                  active_ports := eraseKey active_channel.port s.active_ports }
                (results ++ [match active_channel.connection_type with
                  | ConnectionType.Tcp => ServerOperation.StopTcpOperations active_channel.port
                  | ConnectionType.Udp =>
                    ServerOperation.StopUdpOperations active_channel.port])).1.active_channels with
            | none => []
            | some ach =>
              (match ach.connection_type with
               | ConnectionType.Tcp => ServerOperation.StopTcpOperations ach.port
               | ConnectionType.Udp => ServerOperation.StopUdpOperations ach.port) ::
              ach.tcp_connections.map
                (fun connection => ServerOperation.DisconnectConnection connection)) =
          rest.flatMap (fun ch => match lookupKey ch s.active_channels with
            | none => []
            | some ach =>
              (match ach.connection_type with
               | ConnectionType.Tcp => ServerOperation.StopTcpOperations ach.port
               | ConnectionType.Udp => ServerOperation.StopUdpOperations ach.port) ::
              ach.tcp_connections.map
                (fun connection => ServerOperation.DisconnectConnection connection)) := by
        apply bind_congr_of_mem
        intro ch hmem
        rw [disconnectLoop_active_channels]
        have hne : ch ≠ channel := fun h => hch (h ▸ hmem)
        simp only []
        rw [lookupKey_eraseKey_ne s.active_channels hne]
      rw [hcong]
      simp [List.flatMap_cons, hlc, List.append_assoc]

/-- C3 (counterexample): remove_dsrp_client pushes the stop operation of a
channel BEFORE the DisconnectConnection operations of that channel's
connections (server_handler/mod.rs lines 83-93), so a DisconnectConnection
does not precede the owning stop operation: at a state where client 1 owns
TCP channel 1 (port 23) with live connection 1, the returned list is
[StopTcpOperations 23, DisconnectConnection 1]. -/
theorem remove_client_stop_first_counterexample :
    (remove_dsrp_client serverWithTcpChannel 1).1 =
      [ServerOperation.StopTcpOperations 23, ServerOperation.DisconnectConnection 1] ∧
    lookupKey 1 serverWithTcpChannel.active_clients = some { channels := [1] } ∧
    lookupKey 1 serverWithTcpChannel.active_channels = some sampleTcpChannel :=
  ⟨by decide, by decide, by decide⟩

/-- C3 (amended): in the list remove_dsrp_client returns for a known client,
the operations form one block per owned channel, and inside each block the
StopTcpOperations or StopUdpOperations comes FIRST, followed by the
DisconnectConnection operations for that channel's connections (the reverse
of the claimed order; disconnect operations do precede the stop only in the
Unregister handling, not here). -/
theorem remove_client_stop_precedes_disconnects :
    ∀ (s : ServerHandler) (client_id : Nat) (client : ActiveClient),
      lookupKey client_id s.active_clients = some client →
      client.channels.Nodup →
      (remove_dsrp_client s client_id).1 =
        client.channels.flatMap (fun channel =>
          match lookupKey channel s.active_channels with
          | none => []
          | some active_channel =>
            (match active_channel.connection_type with
             | ConnectionType.Tcp => ServerOperation.StopTcpOperations active_channel.port
             | ConnectionType.Udp => ServerOperation.StopUdpOperations active_channel.port) ::
            active_channel.tcp_connections.map
              (fun connection => ServerOperation.DisconnectConnection connection)) := by
  intro s client_id client hcl hnd
  unfold remove_dsrp_client
  simp only [hcl]
  exact removeChannelsLoop_ops client.channels _ [] hnd

/-- Witness for the amended C3 at a concrete state. -/
theorem remove_client_stop_precedes_disconnects_witness :
    lookupKey 1 serverWithTcpChannel.active_clients = some { channels := [1] } ∧
    (remove_dsrp_client serverWithTcpChannel 1).1 =
      (({ channels := [1] } : ActiveClient)).channels.flatMap (fun channel =>
        match lookupKey channel serverWithTcpChannel.active_channels with
        | none => []
        | some active_channel =>
          (match active_channel.connection_type with
           | ConnectionType.Tcp => ServerOperation.StopTcpOperations active_channel.port
           | ConnectionType.Udp => ServerOperation.StopUdpOperations active_channel.port) ::
          active_channel.tcp_connections.map
            (fun connection => ServerOperation.DisconnectConnection connection)) :=
  ⟨by decide,
   remove_client_stop_precedes_disconnects serverWithTcpChannel 1 { channels := [1] }
     (by decide) (by decide)⟩

theorem allocId_spec {α : Type} (m : List (Nat × α)) (next r : Nat) (hr : r < W32)
    (hfree : lookupKey r m = none) :
    ∃ id, allocId next (keysOf m) = some id ∧ lookupKey id m = none := by
  have hnm : r ∉ keysOf m := by
    intro h
    have := (lookupKey_isSome_iff_mem_keysOf r m).2 h
    rw [hfree] at this
    simp at this
  have hsome := allocId_isSome hnm hr next
  obtain ⟨id, hid⟩ := Option.isSome_iff_exists.1 hsome
  exact ⟨id, hid, lookupKey_eq_none_of_not_mem_keysOf (allocId_not_mem hid)⟩

/-- C7: each of the four identifier allocations — ClientId in
add_dsrp_client, ChannelId in the Register arm, ConnectionId in
new_channel_tcp_connection and RequestId in request_registration — probes the
shared wrapping 32-bit counter loop (allocId) forward past live candidates,
so that as long as the corresponding live map is not full (some 32-bit id is
not a key) the call returns and the id it hands back is not currently a key
of that map. -/
theorem id_allocation_returns_fresh_id :
    (∀ (s : ServerHandler) (request : HandshakeRequest) (r : Nat),
      request.client_protocol_version = CURRENT_PROTOCOL_VERSION →
      r < W32 → lookupKey r s.active_clients = none →
      ∃ new_client, (add_dsrp_client s request).map Prod.fst =
          some (Except.ok new_client) ∧
        lookupKey new_client.id s.active_clients = none) ∧
    (∀ (s : ServerHandler) (client_id request : Nat) (connection_type : ConnectionType)
        (port r : Nat),
      (lookupKey client_id s.active_clients).isSome →
      lookupKey port s.active_ports = none →
      r < W32 → lookupKey r s.active_channels = none →
      ∃ channel_id,
        (handle_client_message s client_id
            (ClientMessage.Register request connection_type port)).map Prod.fst =
          some (Except.ok
            [(match connection_type with
              | ConnectionType.Tcp => ServerOperation.StartTcpOperations port channel_id
              | ConnectionType.Udp => ServerOperation.StartUdpOperations port channel_id),
             ServerOperation.SendMessageToDsrpClient
               (ServerMessage.RegistrationSuccessful request channel_id)]) ∧
        lookupKey channel_id s.active_channels = none) ∧
    (∀ (s : ServerHandler) (channel_id : Nat) (channel : ActiveChannel) (r : Nat),
      lookupKey channel_id s.active_channels = some channel →
      channel.connection_type = ConnectionType.Tcp →
      r < W32 → lookupKey r s.active_tcp_connections = none →
      ∃ new_connection_id,
        (new_channel_tcp_connection s channel_id).map Prod.fst =
          some (Except.ok (new_connection_id,
            ServerOperation.SendMessageToDsrpClient
              (ServerMessage.NewIncomingTcpConnection channel_id new_connection_id))) ∧
        lookupKey new_connection_id s.active_tcp_connections = none) ∧
    (∀ (c : ClientHandler) (connection_type : ConnectionType) (port r : Nat),
      r < W32 → lookupKey r c.outstanding_requests = none →
      ∃ request_id,
        (request_registration c connection_type port).map Prod.fst =
          some (request_id, ClientMessage.Register request_id connection_type port) ∧
        lookupKey request_id c.outstanding_requests = none) := by
  refine ⟨?_, ?_, ?_, ?_⟩
  · intro s request r hver hr hfree
    obtain ⟨id, hid, hfresh⟩ := allocId_spec s.active_clients s.next_client_id r hr hfree
    refine ⟨{ id := id, response := HandshakeResponse.Success }, ?_, hfresh⟩
    unfold add_dsrp_client
    simp [hver, hid]
  · intro s client_id request connection_type port r hcl hport hr hfree
    obtain ⟨id, hid, hfresh⟩ := allocId_spec s.active_channels s.next_channel_id r hr hfree
    obtain ⟨cl, hcl2⟩ := Option.isSome_iff_exists.1 hcl
    refine ⟨id, ?_, hfresh⟩
    unfold handle_client_message
    simp [hcl2, hport, hid]
  · intro s channel_id channel r hch htcp hr hfree
    obtain ⟨id, hid, hfresh⟩ :=
      allocId_spec s.active_tcp_connections s.next_connection_id r hr hfree
    refine ⟨id, ?_, hfresh⟩
    unfold new_channel_tcp_connection
    simp [hch, htcp, hid]
  · intro c connection_type port r hr hfree
    obtain ⟨id, hid, hfresh⟩ :=
      allocId_spec c.outstanding_requests c.next_request_id r hr hfree
    refine ⟨id, ?_, hfresh⟩
    unfold request_registration
    simp [hid]

/-- Witness for C7: all four allocations at concrete states with free ids. -/
theorem id_allocation_returns_fresh_id_witness :
    (∃ new_client, (add_dsrp_client ServerHandler.new
        { client_protocol_version := 1 }).map Prod.fst = some (Except.ok new_client) ∧
      lookupKey new_client.id ServerHandler.new.active_clients = none) ∧
    (∃ channel_id,
      (handle_client_message serverWithOneClient 1
          (ClientMessage.Register 25 ConnectionType.Tcp 23)).map Prod.fst =
        some (Except.ok
          [(match ConnectionType.Tcp with
            | ConnectionType.Tcp => ServerOperation.StartTcpOperations 23 channel_id
            | ConnectionType.Udp => ServerOperation.StartUdpOperations 23 channel_id),
           ServerOperation.SendMessageToDsrpClient
             (ServerMessage.RegistrationSuccessful 25 channel_id)]) ∧
      lookupKey channel_id serverWithOneClient.active_channels = none) ∧
    (∃ new_connection_id,
      (new_channel_tcp_connection serverWithTcpChannel 1).map Prod.fst =
        some (Except.ok (new_connection_id,
          ServerOperation.SendMessageToDsrpClient
            (ServerMessage.NewIncomingTcpConnection 1 new_connection_id))) ∧
      lookupKey new_connection_id serverWithTcpChannel.active_tcp_connections = none) ∧
    (∃ request_id,
      (request_registration { outstanding_requests := [], next_request_id := 0 }
          ConnectionType.Udp 23).map Prod.fst =
        some (request_id, ClientMessage.Register request_id ConnectionType.Udp 23) ∧
      lookupKey request_id
        ({ outstanding_requests := [], next_request_id := 0 } : ClientHandler).outstanding_requests =
        none) :=
  ⟨id_allocation_returns_fresh_id.1 ServerHandler.new { client_protocol_version := 1 } 1
     (by decide) (by decide) (by decide),
   id_allocation_returns_fresh_id.2.1 serverWithOneClient 1 25 ConnectionType.Tcp 23 1
     (by decide) (by decide) (by decide) (by decide),
   id_allocation_returns_fresh_id.2.2.1 serverWithTcpChannel 1 sampleTcpChannel 2
     (by decide) (by decide) (by decide) (by decide),
   id_allocation_returns_fresh_id.2.2.2 { outstanding_requests := [], next_request_id := 0 }
     ConnectionType.Udp 23 1 (by decide) (by decide)⟩

theorem responseRequestIds_append (a b : List ServerOperation) :
    responseRequestIds (a ++ b) = responseRequestIds a ++ responseRequestIds b :=
  List.filterMap_append a b _

theorem registerRequestIds_cons (c : ServerCall) (rest : List ServerCall) :
    registerRequestIds (c :: rest) = registerRequestIds [c] ++ registerRequestIds rest := by
  have : c :: rest = [c] ++ rest := rfl
  rw [this, registerRequestIds, List.filterMap_append]
  rfl

theorem responseRequestIds_disconnects (cs : List Nat) :
    responseRequestIds (cs.map
      (fun connection => ServerOperation.DisconnectConnection connection)) = [] := by
  induction cs with
  | nil => rfl
  | cons c rest ih => simp only [List.map_cons, responseRequestIds, List.filterMap_cons]; exact ih

theorem removeChannelsLoop_respIds (chans : List Nat) :
    ∀ (s : ServerHandler) (results : List ServerOperation),
      responseRequestIds (removeChannelsLoop chans s results).2 =
        responseRequestIds results := by
  induction chans with
  | nil => intro s results; rfl
  | cons channel rest ih =>
    intro s results
    cases hlc : lookupKey channel s.active_channels with
    | none =>
      simp only [removeChannelsLoop, hlc]
      exact ih _ _
    | some active_channel =>
      simp only [removeChannelsLoop, hlc]
      rw [ih _ _, disconnectLoop_ops, responseRequestIds_append,
        responseRequestIds_append, responseRequestIds_disconnects]
      obtain ⟨p, ct, ow, conns⟩ := active_channel
      cases ct <;> simp [responseRequestIds, List.filterMap_cons]

theorem disconnection_notification_respIds (s : ServerHandler)
    (client_id channel_id connection_id : Nat) :
    responseRequestIds
      (handle_dsrp_client_disconnection_notification s client_id channel_id connection_id).1 =
      [] := by
  unfold handle_dsrp_client_disconnection_notification
  repeat' split
  all_goals simp [responseRequestIds, List.filterMap_cons]

theorem handle_client_message_respIds :
    ∀ (s : ServerHandler) (client_id : Nat) (message : ClientMessage)
      (res : Except ClientMessageHandlingErrorKind (List ServerOperation)) (s' : ServerHandler),
      handle_client_message s client_id message = some (res, s') →
      ∀ r, (responseRequestIds (match res with
          | Except.ok ops => ops
          | Except.error _ => [])).count r ≤
        (registerRequestIds [ServerCall.clientMsg client_id message]).count r := by
  intro s client_id message res s' h r
  unfold handle_client_message at h
  by_cases hcl : (lookupKey client_id s.active_clients).isSome
  · rw [if_neg (by simp [hcl])] at h
    cases message with
    | Register request connection_type port =>
      try dsimp only at h
      by_cases hport : (lookupKey port s.active_ports).isSome
      · rw [if_pos hport] at h
        simp only [Option.some.injEq, Prod.mk.injEq] at h
        rw [← h.1]
        simp [responseRequestIds, registerRequestIds, List.filterMap_cons]
      · rw [if_neg hport] at h
        cases halloc : allocId s.next_channel_id (keysOf s.active_channels) with
        | none => rw [halloc] at h; simp at h
        | some channel_id =>
          rw [halloc] at h
          try dsimp only at h
          obtain ⟨cl, hcl2⟩ := Option.isSome_iff_exists.1 hcl
          simp only [hcl2] at h
          try dsimp only at h
          simp only [Option.some.injEq, Prod.mk.injEq] at h
          rw [← h.1]
          cases connection_type <;>
            simp [responseRequestIds, registerRequestIds, List.filterMap_cons]
    | Unregister channel =>
      try dsimp only at h
      cases hch : lookupKey channel s.active_channels with
      | none =>
        rw [hch] at h
        try dsimp only at h
        simp only [Option.some.injEq, Prod.mk.injEq] at h
        rw [← h.1]
        simp [responseRequestIds]
      | some channel_details =>
        rw [hch] at h
        try dsimp only at h
        by_cases howner : channel_details.owner ≠ client_id
        · rw [if_pos howner] at h
          simp only [Option.some.injEq, Prod.mk.injEq] at h
          rw [← h.1]
          simp [responseRequestIds]
        · rw [if_neg howner] at h
          simp only [Option.some.injEq, Prod.mk.injEq] at h
          rw [← h.1]
          rw [responseRequestIds_append, responseRequestIds_disconnects]
          obtain ⟨p, ct, ow, conns⟩ := channel_details
          cases ct <;> simp [responseRequestIds, List.filterMap_cons]
    | TcpConnectionDisconnected channel_id connection_id =>
      try dsimp only at h
      simp only [Option.some.injEq, Prod.mk.injEq] at h
      rw [← h.1]
      rw [disconnection_notification_respIds]
      simp
    | DataBeingSent channel connection data =>
      try dsimp only at h
      simp at h
  · rw [if_pos (by simp [Option.not_isSome_iff_eq_none.1 hcl])] at h
    simp only [Option.some.injEq, Prod.mk.injEq] at h
    rw [← h.1]
    simp [responseRequestIds]

theorem serverStep_respIds_le (s : ServerHandler) (c : ServerCall) (s' : ServerHandler)
    (ops : List ServerOperation) (h : serverStep s c = some (s', ops)) :
    ∀ r, (responseRequestIds ops).count r ≤ (registerRequestIds [c]).count r := by
  intro r
  cases c with
  | addClient request =>
    unfold serverStep at h
    try dsimp only at h
    cases hadd : add_dsrp_client s request with
    | none => rw [hadd] at h; simp at h
    | some p =>
      rw [hadd] at h
      simp only [Option.map_some', Option.some.injEq, Prod.mk.injEq] at h
      rw [← h.2]
      simp [responseRequestIds]
  | removeClient client_id =>
    unfold serverStep at h
    try dsimp only at h
    simp only [Option.some.injEq, Prod.mk.injEq] at h
    rw [← h.2]
    unfold remove_dsrp_client
    cases hcl : lookupKey client_id s.active_clients with
    | none => simp [responseRequestIds]
    | some client =>
      simp only [hcl]
      rw [removeChannelsLoop_respIds]
      simp [responseRequestIds]
  | clientMsg client_id message =>
    unfold serverStep at h
    try dsimp only at h
    cases hm : handle_client_message s client_id message with
    | none => rw [hm] at h; simp at h
    | some p =>
      rw [hm] at h
      simp only [Option.map_some', Option.some.injEq, Prod.mk.injEq] at h
      rw [← h.2]
      exact handle_client_message_respIds s client_id message p.1 p.2 (by rw [hm]) r
  | newTcpConn channel_id =>
    unfold serverStep at h
    try dsimp only at h
    unfold new_channel_tcp_connection at h
    repeat' split at h
    all_goals try (rcases h with ⟨h1, rfl⟩)
    all_goals simp_all [responseRequestIds, List.filterMap_cons, registerRequestIds]
  | tcpDisconnected connection_id =>
    unfold serverStep at h
    try dsimp only at h
    simp only [Option.some.injEq, Prod.mk.injEq] at h
    rw [← h.2]
    unfold tcp_connection_disconnected
    cases hc : lookupKey connection_id s.active_tcp_connections with
    | none => simp [responseRequestIds]
    | some connection => simp [responseRequestIds, List.filterMap_cons]
  | tcpData connection_id data =>
    unfold serverStep at h
    try dsimp only at h
    simp only [Option.some.injEq, Prod.mk.injEq] at h
    rw [← h.2]
    unfold tcp_data_received
    cases hc : lookupKey connection_id s.active_tcp_connections with
    | none => simp [responseRequestIds]
    | some connection => simp [responseRequestIds, List.filterMap_cons]
  | udpData channel_id data =>
    unfold serverStep at h
    try dsimp only at h
    simp only [Option.some.injEq, Prod.mk.injEq] at h
    rw [← h.2]
    unfold udp_data_received
    by_cases hc : (lookupKey channel_id s.active_channels).isSome
    · rw [if_neg (by simp [hc])]
      simp [responseRequestIds, List.filterMap_cons]
    · rw [if_pos (by simp [Option.not_isSome_iff_eq_none.1 hc])]
      simp [responseRequestIds]

theorem runServer_respIds_le (calls : List ServerCall) :
    ∀ (s s' : ServerHandler) (ops : List ServerOperation),
      runServer s calls = some (s', ops) → ∀ r,
      (responseRequestIds ops).count r ≤ (registerRequestIds calls).count r := by
  induction calls with
  | nil =>
    intro s s' ops h r
    simp only [runServer, Option.some.injEq, Prod.mk.injEq] at h
    rw [← h.2]
    simp [responseRequestIds]
  | cons c rest ih =>
    intro s s' ops h r
    unfold runServer at h
    cases hstep : serverStep s c with
    | none => rw [hstep] at h; simp at h
    | some p =>
      obtain ⟨s1, ops1⟩ := p
      rw [hstep] at h
      dsimp only at h
      cases hrun : runServer s1 rest with
      | none => rw [hrun] at h; simp at h
      | some q =>
        obtain ⟨s2, ops2⟩ := q
        rw [hrun] at h
        simp only [Option.some.injEq, Prod.mk.injEq] at h
        rw [← h.2]
        rw [responseRequestIds_append, List.count_append, registerRequestIds_cons,
          List.count_append]
        exact Nat.add_le_add (serverStep_respIds_le s c s1 ops1 hstep r)
          (ih s1 s2 ops2 hrun r)

theorem responseRequestIds_count_split (ops : List ServerOperation) (r : Nat) :
    (responseRequestIds ops).count r =
      (successRequestIds ops).count r + (failRequestIds ops).count r := by
  induction ops with
  | nil => rfl
  | cons op rest ih =>
    cases op with
    | SendMessageToDsrpClient msg =>
      cases msg with
      | RegistrationSuccessful request created_channel =>
        simp only [responseRequestIds, successRequestIds, failRequestIds] at ih ⊢
        by_cases hreq : request = r <;>
          (simp [List.filterMap_cons, List.count_cons, hreq, ih]; try omega)
      | RegistrationFailed request cause =>
        simp only [responseRequestIds, successRequestIds, failRequestIds] at ih ⊢
        by_cases hreq : request = r <;>
          (simp [List.filterMap_cons, List.count_cons, hreq, ih]; try omega)
      | NewIncomingTcpConnection channel new_connection =>
        simpa [responseRequestIds, successRequestIds, failRequestIds,
          List.filterMap_cons] using ih
      | TcpConnectionClosed channel connection =>
        simpa [responseRequestIds, successRequestIds, failRequestIds,
          List.filterMap_cons] using ih
      | DataReceived channel connection data =>
        simpa [responseRequestIds, successRequestIds, failRequestIds,
          List.filterMap_cons] using ih
    | StartTcpOperations port channel =>
      simpa [responseRequestIds, successRequestIds, failRequestIds,
        List.filterMap_cons] using ih
    | StopTcpOperations port =>
      simpa [responseRequestIds, successRequestIds, failRequestIds,
        List.filterMap_cons] using ih
    | StartUdpOperations port channel =>
      simpa [responseRequestIds, successRequestIds, failRequestIds,
        List.filterMap_cons] using ih
    | StopUdpOperations port =>
      simpa [responseRequestIds, successRequestIds, failRequestIds,
        List.filterMap_cons] using ih
    | DisconnectConnection connection =>
      simpa [responseRequestIds, successRequestIds, failRequestIds,
        List.filterMap_cons] using ih
    | SendByteData channel connection data =>
      simpa [responseRequestIds, successRequestIds, failRequestIds,
        List.filterMap_cons] using ih

/-- C4 (counterexample): the server never tracks RequestIds, so a client that
reuses a RequestId across two Register messages receives two
RegistrationSuccessful responses carrying the same RequestId: over the call
sequence addClient, Register{request 7, port 23}, Register{request 7, port
24} from a fresh handler, the emitted operations carry RegistrationSuccessful
for request 7 twice. -/
theorem duplicate_request_id_two_successes_counterexample :
    (runServer ServerHandler.new
        [ServerCall.addClient { client_protocol_version := 1 },
         ServerCall.clientMsg 1 (ClientMessage.Register 7 ConnectionType.Tcp 23),
         ServerCall.clientMsg 1 (ClientMessage.Register 7 ConnectionType.Tcp 24)]).map
      (fun p => successRequestIds p.2) = some [7, 7] := by decide

/-- C4 (amended): over every sequence of public calls starting from a fresh
ServerHandler IN WHICH the Register messages carry pairwise distinct
RequestIds, the emitted operations contain at most one RegistrationSuccessful
per RequestId, at most one RegistrationFailed per RequestId, and never both
for the same RequestId. (Without the distinctness hypothesis the claim fails,
as the counterexample shows: the server keeps no per-request state.) -/
theorem registration_responses_at_most_once :
    ∀ (calls : List ServerCall) (s : ServerHandler) (ops : List ServerOperation),
      runServer ServerHandler.new calls = some (s, ops) →
      (registerRequestIds calls).Nodup →
      ∀ r, (successRequestIds ops).count r ≤ 1 ∧
        (failRequestIds ops).count r ≤ 1 ∧
        ¬(r ∈ successRequestIds ops ∧ r ∈ failRequestIds ops) := by
  intro calls s ops hrun hnd r
  have h1 := runServer_respIds_le calls ServerHandler.new s ops hrun r
  have h2 := (List.nodup_iff_count_le_one.1 hnd) r
  have h3 := responseRequestIds_count_split ops r
  refine ⟨by omega, by omega, ?_⟩
  rintro ⟨hs, hf⟩
  have hs' : 0 < (successRequestIds ops).count r := List.count_pos_iff.mpr hs
  have hf' : 0 < (failRequestIds ops).count r := List.count_pos_iff.mpr hf
  omega

/-- Witness for the amended C4 on a concrete two-registration trace with
distinct request ids. -/
theorem registration_responses_at_most_once_witness :
    runServer ServerHandler.new
        [ServerCall.addClient { client_protocol_version := 1 },
         ServerCall.clientMsg 1 (ClientMessage.Register 7 ConnectionType.Tcp 23),
         ServerCall.clientMsg 1 (ClientMessage.Register 8 ConnectionType.Tcp 23)] =
      some (ServerHandler.mk [(1, ActiveClient.mk [1])] [(23, 1)]
          [(1, ActiveChannel.mk 23 ConnectionType.Tcp 1 [])] [] 1 1 0,
        [ServerOperation.StartTcpOperations 23 1,
         ServerOperation.SendMessageToDsrpClient (ServerMessage.RegistrationSuccessful 7 1),
         ServerOperation.SendMessageToDsrpClient
           (ServerMessage.RegistrationFailed 8 RegistrationFailureCause.PortAlreadyRegistered)]) ∧
    ([7, 8] : List Nat).Nodup ∧
    (successRequestIds
        [ServerOperation.StartTcpOperations 23 1,
         ServerOperation.SendMessageToDsrpClient (ServerMessage.RegistrationSuccessful 7 1),
         ServerOperation.SendMessageToDsrpClient
           (ServerMessage.RegistrationFailed 8 RegistrationFailureCause.PortAlreadyRegistered)]).count
      7 ≤ 1 :=
  ⟨by decide, by decide,
   (registration_responses_at_most_once
     [ServerCall.addClient { client_protocol_version := 1 },
      ServerCall.clientMsg 1 (ClientMessage.Register 7 ConnectionType.Tcp 23),
      ServerCall.clientMsg 1 (ClientMessage.Register 8 ConnectionType.Tcp 23)]
     (ServerHandler.mk [(1, ActiveClient.mk [1])] [(23, 1)]
       [(1, ActiveChannel.mk 23 ConnectionType.Tcp 1 [])] [] 1 1 0)
     [ServerOperation.StartTcpOperations 23 1,
      ServerOperation.SendMessageToDsrpClient (ServerMessage.RegistrationSuccessful 7 1),
      ServerOperation.SendMessageToDsrpClient
        (ServerMessage.RegistrationFailed 8 RegistrationFailureCause.PortAlreadyRegistered)]
     (by decide) (by decide) 7).1⟩

theorem inv_same_fields {s s' : ServerHandler} (h : PortsChannelsInverse s)
    (hp : s'.active_ports = s.active_ports) (hc : s'.active_channels = s.active_channels) :
    PortsChannelsInverse s' := by
  obtain ⟨h1, h2⟩ := h
  constructor
  · intro channel ach hl
    rw [hc] at hl
    rw [hp]
    exact h1 channel ach hl
  · intro port channel hl
    rw [hp] at hl
    rw [hc]
    exact h2 port channel hl

theorem inv_insert_pair {s : ServerHandler} (h : PortsChannelsInverse s)
    (port ch : Nat) (rec : ActiveChannel)
    (hport : lookupKey port s.active_ports = none)
    (hch : lookupKey ch s.active_channels = none)
    (hrec : rec.port = port) :
    PortsChannelsInverse { s with
      active_ports := insertKey port ch s.active_ports
      active_channels := insertKey ch rec s.active_channels } := by
  obtain ⟨h1, h2⟩ := h
  constructor
  · intro ch' ach' hl
    simp only at hl ⊢
    by_cases hee : ch' = ch
    · subst hee
      rw [lookupKey_insertKey_self] at hl
      injection hl with he
      rw [← he, hrec]
      exact lookupKey_insertKey_self port ch' s.active_ports
    · rw [lookupKey_insertKey_ne _ _ hee] at hl
      have hp' := h1 ch' ach' hl
      have hpne : ach'.port ≠ port := by
        intro he
        rw [he, hport] at hp'
        cases hp'
      rw [lookupKey_insertKey_ne _ _ hpne]
      exact hp'
  · intro p ch0 hl
    simp only at hl ⊢
    by_cases hpe : p = port
    · subst hpe
      rw [lookupKey_insertKey_self] at hl
      injection hl with he
      refine ⟨rec, ?_, hrec⟩
      rw [← he]
      exact lookupKey_insertKey_self ch rec s.active_channels
    · rw [lookupKey_insertKey_ne _ _ hpe] at hl
      obtain ⟨ach, hach, hachp⟩ := h2 p ch0 hl
      have hne : ch0 ≠ ch := by
        intro he
        rw [he, hch] at hach
        cases hach
      rw [lookupKey_insertKey_ne _ _ hne]
      exact ⟨ach, hach, hachp⟩

theorem inv_erase_pair {s : ServerHandler} (h : PortsChannelsInverse s)
    (ch : Nat) (ach : ActiveChannel)
    (hch : lookupKey ch s.active_channels = some ach) :
    PortsChannelsInverse { s with
      active_ports := eraseKey ach.port s.active_ports
      active_channels := eraseKey ch s.active_channels } := by
  obtain ⟨h1, h2⟩ := h
  have hports : lookupKey ach.port s.active_ports = some ch := h1 ch ach hch
  constructor
  · intro ch' ach' hl
    simp only at hl ⊢
    have hne : ch' ≠ ch := by
      intro he
      rw [he, lookupKey_eraseKey_self] at hl
      cases hl
    rw [lookupKey_eraseKey_ne _ hne] at hl
    have hp' := h1 ch' ach' hl
    have hpne : ach'.port ≠ ach.port := by
      intro he
      rw [he, hports] at hp'
      injection hp' with he2
      exact hne he2.symm
    rw [lookupKey_eraseKey_ne _ hpne]
    exact hp'
  · intro p ch0 hl
    simp only at hl ⊢
    have hpne : p ≠ ach.port := by
      intro he
      rw [he, lookupKey_eraseKey_self] at hl
      cases hl
    rw [lookupKey_eraseKey_ne _ hpne] at hl
    obtain ⟨ach0, hach0, hachp⟩ := h2 p ch0 hl
    have hne : ch0 ≠ ch := by
      intro he
      rw [he, hch] at hach0
      injection hach0 with he2
      exact hpne (by rw [← hachp, he2])
    rw [lookupKey_eraseKey_ne _ hne]
    exact ⟨ach0, hach0, hachp⟩

theorem inv_update_channel {s : ServerHandler} (h : PortsChannelsInverse s)
    (ch : Nat) (ach ach' : ActiveChannel)
    (hch : lookupKey ch s.active_channels = some ach)
    (hport : ach'.port = ach.port) :
    PortsChannelsInverse { s with
      active_channels := insertKey ch ach' s.active_channels } := by
  obtain ⟨h1, h2⟩ := h
  constructor
  · intro ch0 ach0 hl
    simp only at hl ⊢
    by_cases he : ch0 = ch
    · subst he
      rw [lookupKey_insertKey_self] at hl
      injection hl with he2
      rw [← he2, hport]
      exact h1 ch0 ach hch
    · rw [lookupKey_insertKey_ne _ _ he] at hl
      exact h1 ch0 ach0 hl
  · intro p ch0 hl
    simp only at hl ⊢
    obtain ⟨ach0, hach0, hachp⟩ := h2 p ch0 hl
    by_cases he : ch0 = ch
    · subst he
      refine ⟨ach', lookupKey_insertKey_self ch0 ach' s.active_channels, ?_⟩
      rw [hach0] at hch
      injection hch with he2
      rw [hport, ← he2]
      exact hachp
    · refine ⟨ach0, ?_, hachp⟩
      rw [lookupKey_insertKey_ne _ _ he]
      exact hach0

theorem add_dsrp_client_inv (s : ServerHandler) (request : HandshakeRequest)
    (res : Except HandshakeResponse NewClient) (s' : ServerHandler)
    (h : add_dsrp_client s request = some (res, s')) (hinv : PortsChannelsInverse s) :
    PortsChannelsInverse s' := by
  unfold add_dsrp_client at h
  repeat' split at h
  all_goals try (rcases h with ⟨h1, rfl⟩)
  all_goals exact hinv

theorem removeChannelsLoop_inv (chans : List Nat) :
    ∀ (s : ServerHandler) (results : List ServerOperation), PortsChannelsInverse s →
      PortsChannelsInverse (removeChannelsLoop chans s results).1 := by
  induction chans with
  | nil => intro s results hinv; exact hinv
  | cons channel rest ih =>
    intro s results hinv
    cases hlc : lookupKey channel s.active_channels with
    | none =>
      simp only [removeChannelsLoop, hlc]
      exact ih s results hinv
    | some ach =>
      simp only [removeChannelsLoop, hlc]
      apply ih
      exact inv_same_fields (inv_erase_pair hinv channel ach hlc)
        (disconnectLoop_active_ports _ _ _) (disconnectLoop_active_channels _ _ _)

theorem remove_dsrp_client_inv (s : ServerHandler) (client_id : Nat)
    (hinv : PortsChannelsInverse s) :
    PortsChannelsInverse (remove_dsrp_client s client_id).2 := by
  unfold remove_dsrp_client
  cases hcl : lookupKey client_id s.active_clients with
  | none => exact hinv
  | some client =>
    simp only [hcl]
    exact removeChannelsLoop_inv client.channels _ [] (inv_same_fields hinv rfl rfl)

theorem disconnection_notification_inv (s : ServerHandler)
    (client_id channel_id connection_id : Nat) (hinv : PortsChannelsInverse s) :
    PortsChannelsInverse
      (handle_dsrp_client_disconnection_notification s client_id channel_id connection_id).2 := by
  unfold handle_dsrp_client_disconnection_notification
  cases hc : lookupKey connection_id s.active_tcp_connections with
  | none => exact hinv
  | some connection =>
    simp only [hc]
    cases hch : lookupKey channel_id s.active_channels with
    | none => exact hinv
    | some channel =>
      simp only [hch]
      by_cases hcond : connection.owning_channel ≠ channel_id ∨ channel.owner ≠ client_id
      · rw [if_pos hcond]
        exact hinv
      · rw [if_neg hcond]
        exact inv_same_fields
          (inv_update_channel hinv channel_id channel
            { channel with tcp_connections :=
                channel.tcp_connections.filter (fun c => c != connection_id) } hch rfl)
          rfl rfl

theorem handle_client_message_inv (s : ServerHandler) (client_id : Nat)
    (message : ClientMessage) (res : Except ClientMessageHandlingErrorKind (List ServerOperation))
    (s' : ServerHandler) (h : handle_client_message s client_id message = some (res, s'))
    (hinv : PortsChannelsInverse s) : PortsChannelsInverse s' := by
  unfold handle_client_message at h
  by_cases hcl : (lookupKey client_id s.active_clients).isSome
  · rw [if_neg (by simp [hcl])] at h
    cases message with
    | Register request connection_type port =>
      try dsimp only at h
      by_cases hport : (lookupKey port s.active_ports).isSome
      · rw [if_pos hport] at h
        rcases h with ⟨h1, rfl⟩
        exact hinv
      · rw [if_neg hport] at h
        cases halloc : allocId s.next_channel_id (keysOf s.active_channels) with
        | none => rw [halloc] at h; simp at h
        | some channel_id =>
          rw [halloc] at h
          try dsimp only at h
          obtain ⟨cl, hcl2⟩ := Option.isSome_iff_exists.1 hcl
          simp only [hcl2] at h
          try dsimp only at h
          rcases h with ⟨h1, rfl⟩
          exact inv_same_fields
            (inv_insert_pair hinv port channel_id
              { port := port, connection_type := connection_type, owner := client_id,
                tcp_connections := [] }
              (Option.not_isSome_iff_eq_none.1 hport)
              (lookupKey_eq_none_of_not_mem_keysOf (allocId_not_mem halloc)) rfl)
            rfl rfl
    | Unregister channel =>
      try dsimp only at h
      cases hch : lookupKey channel s.active_channels with
      | none =>
        rw [hch] at h
        try dsimp only at h
        rcases h with ⟨h1, rfl⟩
        exact hinv
      | some channel_details =>
        rw [hch] at h
        try dsimp only at h
        by_cases howner : channel_details.owner ≠ client_id
        · rw [if_pos howner] at h
          rcases h with ⟨h1, rfl⟩
          exact hinv
        · rw [if_neg howner] at h
          rcases h with ⟨h1, rfl⟩
          exact inv_same_fields (inv_erase_pair hinv channel channel_details hch) rfl rfl
    | TcpConnectionDisconnected channel_id connection_id =>
      try dsimp only at h
      rcases h with ⟨h1, rfl⟩
      exact disconnection_notification_inv s client_id channel_id connection_id hinv
    | DataBeingSent channel connection data =>
      try dsimp only at h
      simp at h
  · rw [if_pos (by simp [Option.not_isSome_iff_eq_none.1 hcl])] at h
    rcases h with ⟨h1, rfl⟩
    exact hinv

theorem new_channel_tcp_connection_inv (s : ServerHandler) (channel_id : Nat)
    (res : Except NewConnectionErrorKind (Nat × ServerOperation)) (s' : ServerHandler)
    (h : new_channel_tcp_connection s channel_id = some (res, s'))
    (hinv : PortsChannelsInverse s) : PortsChannelsInverse s' := by
  unfold new_channel_tcp_connection at h
  cases hch : lookupKey channel_id s.active_channels with
  | none =>
    rw [hch] at h
    try dsimp only at h
    rcases h with ⟨h1, rfl⟩
    exact hinv
  | some channel =>
    rw [hch] at h
    try dsimp only at h
    cases hct : channel.connection_type with
    | Udp =>
      rw [hct] at h
      try dsimp only at h
      rcases h with ⟨h1, rfl⟩
      exact hinv
    | Tcp =>
      rw [hct] at h
      try dsimp only at h
      cases halloc : allocId s.next_connection_id (keysOf s.active_tcp_connections) with
      | none => rw [halloc] at h; simp at h
      | some new_connection_id =>
        rw [halloc] at h
        try dsimp only at h
        rcases h with ⟨h1, rfl⟩
        exact inv_same_fields
          (inv_update_channel hinv channel_id channel
            { port := channel.port, connection_type := ConnectionType.Tcp,
              owner := channel.owner,
              tcp_connections := setInsert new_connection_id channel.tcp_connections }
            hch rfl)
          rfl rfl

theorem tcp_connection_disconnected_inv (s : ServerHandler) (connection_id : Nat)
    (hinv : PortsChannelsInverse s) :
    PortsChannelsInverse (tcp_connection_disconnected s connection_id).2 := by
  unfold tcp_connection_disconnected
  cases hc : lookupKey connection_id s.active_tcp_connections with
  | none => exact hinv
  | some connection =>
    simp only [hc]
    cases hch : lookupKey connection.owning_channel s.active_channels with
    | none =>
      simp only [hch]
      exact inv_same_fields hinv rfl rfl
    | some x =>
      simp only [hch]
      exact inv_same_fields
        (inv_update_channel hinv connection.owning_channel x
          { x with tcp_connections := x.tcp_connections.filter (fun c => c != connection_id) }
          hch rfl)
        rfl rfl

theorem serverStep_inv (s : ServerHandler) (c : ServerCall) (s' : ServerHandler)
    (ops : List ServerOperation) (h : serverStep s c = some (s', ops))
    (hinv : PortsChannelsInverse s) : PortsChannelsInverse s' := by
  cases c with
  | addClient request =>
    unfold serverStep at h
    try dsimp only at h
    cases hadd : add_dsrp_client s request with
    | none => rw [hadd] at h; simp at h
    | some p =>
      rw [hadd] at h
      simp only [Option.map_some', Option.some.injEq, Prod.mk.injEq] at h
      rw [← h.1]
      exact add_dsrp_client_inv s request p.1 p.2 (by rw [hadd]) hinv
  | removeClient client_id =>
    unfold serverStep at h
    try dsimp only at h
    rcases h with ⟨rfl, h2⟩
    exact remove_dsrp_client_inv s client_id hinv
  | clientMsg client_id message =>
    unfold serverStep at h
    try dsimp only at h
    cases hm : handle_client_message s client_id message with
    | none => rw [hm] at h; simp at h
    | some p =>
      rw [hm] at h
      simp only [Option.map_some', Option.some.injEq, Prod.mk.injEq] at h
      rw [← h.1]
      exact handle_client_message_inv s client_id message p.1 p.2 (by rw [hm]) hinv
  | newTcpConn channel_id =>
    unfold serverStep at h
    try dsimp only at h
    cases hn : new_channel_tcp_connection s channel_id with
    | none => rw [hn] at h; simp at h
    | some p =>
      rw [hn] at h
      simp only [Option.map_some', Option.some.injEq, Prod.mk.injEq] at h
      rw [← h.1]
      exact new_channel_tcp_connection_inv s channel_id p.1 p.2 (by rw [hn]) hinv
  | tcpDisconnected connection_id =>
    unfold serverStep at h
    try dsimp only at h
    rcases h with ⟨rfl, h2⟩
    exact tcp_connection_disconnected_inv s connection_id hinv
  | tcpData connection_id data =>
    unfold serverStep at h
    try dsimp only at h
    rcases h with ⟨rfl, h2⟩
    exact hinv
  | udpData channel_id data =>
    unfold serverStep at h
    try dsimp only at h
    rcases h with ⟨rfl, h2⟩
    exact hinv

theorem runServer_inv (calls : List ServerCall) :
    ∀ (s s' : ServerHandler) (ops : List ServerOperation),
      runServer s calls = some (s', ops) → PortsChannelsInverse s →
      PortsChannelsInverse s' := by
  induction calls with
  | nil =>
    intro s s' ops h hinv
    simp only [runServer, Option.some.injEq, Prod.mk.injEq] at h
    rw [← h.1]
    exact hinv
  | cons c rest ih =>
    intro s s' ops h hinv
    unfold runServer at h
    cases hstep : serverStep s c with
    | none => rw [hstep] at h; simp at h
    | some p =>
      obtain ⟨s1, ops1⟩ := p
      rw [hstep] at h
      dsimp only at h
      cases hrun : runServer s1 rest with
      | none => rw [hrun] at h; simp at h
      | some q =>
        obtain ⟨s2, ops2⟩ := q
        rw [hrun] at h
        simp only [Option.some.injEq, Prod.mk.injEq] at h
        rw [← h.1]
        exact ih s1 s2 ops2 hrun (serverStep_inv s c s1 ops1 hstep hinv)

/-- C6: in every server state reachable from ServerHandler.new by a sequence
of public calls, active_ports is exactly the inverse of active_channels
projected on port: each live channel's port maps back to that channel, each
port entry names a live channel carrying that port, and consequently no two
live channels share a port. -/
theorem reachable_ports_inverse_of_channels :
    ∀ (calls : List ServerCall) (s : ServerHandler) (ops : List ServerOperation),
      runServer ServerHandler.new calls = some (s, ops) →
      PortsChannelsInverse s ∧
      ∀ ch1 ch2 ach1 ach2,
        lookupKey ch1 s.active_channels = some ach1 →
        lookupKey ch2 s.active_channels = some ach2 →
        ach1.port = ach2.port → ch1 = ch2 := by
  intro calls s ops h
  have hbase : PortsChannelsInverse ServerHandler.new := by
    constructor
    · intro channel ach hl
      simp [ServerHandler.new, lookupKey] at hl
    · intro port channel hl
      simp [ServerHandler.new, lookupKey] at hl
  have hinv := runServer_inv calls ServerHandler.new s ops h hbase
  refine ⟨hinv, ?_⟩
  intro ch1 ch2 ach1 ach2 h1 h2 hp
  have e1 := hinv.1 ch1 ach1 h1
  have e2 := hinv.1 ch2 ach2 h2
  rw [hp, e2] at e1
  injection e1 with e
  exact e.symm

/-- Witness for C6 on a concrete reachable state holding one channel. -/
theorem reachable_ports_inverse_of_channels_witness :
    runServer ServerHandler.new
        [ServerCall.addClient { client_protocol_version := 1 },
         ServerCall.clientMsg 1 (ClientMessage.Register 25 ConnectionType.Tcp 23)] =
      some (ServerHandler.mk [(1, ActiveClient.mk [1])] [(23, 1)]
          [(1, ActiveChannel.mk 23 ConnectionType.Tcp 1 [])] [] 1 1 0,
        [ServerOperation.StartTcpOperations 23 1,
         ServerOperation.SendMessageToDsrpClient
           (ServerMessage.RegistrationSuccessful 25 1)]) ∧
    lookupKey 23 (ServerHandler.mk [(1, ActiveClient.mk [1])] [(23, 1)]
        [(1, ActiveChannel.mk 23 ConnectionType.Tcp 1 [])] [] 1 1 0).active_ports =
      some 1 :=
  ⟨by decide,
   (reachable_ports_inverse_of_channels
       [ServerCall.addClient { client_protocol_version := 1 },
        ServerCall.clientMsg 1 (ClientMessage.Register 25 ConnectionType.Tcp 23)]
       (ServerHandler.mk [(1, ActiveClient.mk [1])] [(23, 1)]
         [(1, ActiveChannel.mk 23 ConnectionType.Tcp 1 [])] [] 1 1 0)
       [ServerOperation.StartTcpOperations 23 1,
        ServerOperation.SendMessageToDsrpClient (ServerMessage.RegistrationSuccessful 25 1)]
       (by decide)).1.1 1 (ActiveChannel.mk 23 ConnectionType.Tcp 1 []) (by decide)⟩
